import Mathlib

/-!
Verification development for the DND game engine (src/engine.py,
src/game_types.py, src/ai_conversation.py).

The Python code is shallowly embedded: dataclasses become structures,
dictionaries become ordered association lists (insertion order preserved,
as in Python 3.7+), early-return loops become structural recursion, and
operations that can raise exceptions return `Except String`.  Float
scores (the ingenuity heuristic, in increments of 0.1) are scaled to
integer tenths; every comparison performed by the source (>= 0.6,
>= 0.5) is threshold-exact under this scaling.
-/

namespace DND

/-- Single-quote character, used to build message strings. -/
def apo : String := "\x27"

/-- Substring search over character lists: true iff `pat` occurs as a
contiguous run inside the second list (Python's `pat in s`). -/
def containsFrom (pat : List Char) : List Char → Bool
  | [] => pat.isEmpty
  | c :: cs => List.isPrefixOf pat (c :: cs) || containsFrom pat cs

/-- Python's substring test `pat in s`. -/
def strIn (pat s : String) : Bool := containsFrom pat.data s.data

/-- ASCII lower-casing of one character (Python `str.lower` on the
ASCII texts the engine handles). -/
def lowerChar (c : Char) : Char :=
  if 'A' ≤ c && c ≤ 'Z' then Char.ofNat (c.toNat + 32) else c

/-- Python's `s.lower()`. -/
def strLower (s : String) : String := ⟨s.data.map lowerChar⟩

/-- Whitespace test for Python's `str.strip`. -/
def isSpaceChar (c : Char) : Bool :=
  c = ' ' || c = '\t' || c = '\n' || c = '\x0d' || c = '\x0b' || c = '\x0c'

/-- Python's `s.strip()`: drop whitespace from both ends. -/
def strStrip (s : String) : String :=
  ⟨((s.data.dropWhile isSpaceChar).reverse.dropWhile isSpaceChar).reverse⟩

/-- Ordered-dict lookup: value of the first pair whose key matches. -/
def lookupStore {α : Type} (m : List (String × α)) (k : String) : Option α :=
  (m.find? (fun p => p.1 == k)).map (fun p => p.2)

/-- Ordered-dict assignment `m[k] = v`: replace the first matching key
in place, otherwise append (Python 3.7+ dict semantics; dict keys are
unique, so first-match replacement is exact). -/
def dictSet {α : Type} : List (String × α) → String → α → List (String × α)
  | [], k, v => [(k, v)]
  | p :: ps, k, v => if p.1 == k then (k, v) :: ps else p :: dictSet ps k v

/-- Key list of an ordered dict. -/
def keysOf {α : Type} (m : List (String × α)) : List String := m.map (fun p => p.1)

/-- Python `k in m` for a dict. -/
def hasKey {α : Type} (m : List (String × α)) (k : String) : Bool :=
  (m.find? (fun p => p.1 == k)).isSome

/-- Digit-run accumulator for `int()`: accepts digits with single
underscores between digits (Python numeric-literal grouping). -/
def pyIntLoop (acc : Nat) : List Char → Option Nat
  | [] => some acc
  | c :: cs =>
    if c.isDigit then pyIntLoop (acc * 10 + (c.toNat - 48)) cs
    else if c = '_' then
      match cs with
      | [] => none
      | d :: cs2 =>
        if d.isDigit then pyIntLoop (acc * 10 + (d.toNat - 48)) cs2 else none
    else none
  termination_by l => l.length

/-- Unsigned digit parse used by `pyInt`. -/
def pyIntDigits : List Char → Option Nat
  | [] => none
  | c :: cs => if c.isDigit then pyIntLoop (c.toNat - 48) cs else none

/-- Python's `int(s)`: optional surrounding whitespace, optional sign,
then digits; `none` models a raised `ValueError`. -/
def pyInt (s : String) : Option Int :=
  let t := strStrip s
  match t.data with
  | '-' :: rest => (pyIntDigits rest).map (fun n => -(n : Int))
  | '+' :: rest => (pyIntDigits rest).map (fun n => (n : Int))
  | l => (pyIntDigits l).map (fun n => (n : Int))

/-! ## Action primitive (src/game_types.py, class Action) -/

/-- game_types.Stats — the fields of the player's stat block read or
written by `Action.can_perform` / `Action.execute`. -/
structure Stats where
  health : Int
  max_health : Int
  mana : Int
  max_mana : Int
  level : Int
  experience : Int
deriving DecidableEq, Repr

/-- game_types.Entity — the actor slice used by the action executor and
the balance validators (remaining dataclass fields are not read by the
embedded operations). -/
structure Entity where
  id : String
  name : String
  stats : Stats
  inventory : List String
  skills : List String
  quests_in_progress : List String
  gold : Int
deriving DecidableEq, Repr

/-- A value stored in `GameState.temporary_effects` (the source stores
ints, strings, lists of strings and booleans there). -/
inductive TmpVal where
  | int (n : Int)
  | str (s : String)
  | strlist (l : List String)
  | bool (b : Bool)
deriving DecidableEq, Repr

/-- An entry of `GameState.world_events` as appended by the
`trigger_event` effect. -/
structure WorldEvent where
  id : String
  triggered_by : String
  timestamp : String
deriving DecidableEq, Repr

/-- game_types.GameState — the fields touched by `Action.can_perform`
and `Action.execute`.  Note: the class has NO `temporary_abilities`
attribute (this matters for the `unlock_ability` effect). -/
structure GameState where
  timestamp : String
  player_location : String
  discovered_locations : List String
  npc_relationships : List (String × Int)
  world_events : List WorldEvent
  temporary_effects : List (String × TmpVal)
deriving DecidableEq, Repr

/-- The `requirements` dict of an Action: keys read by `can_perform`
("level", "items", "skills", "location"); an absent key is `none`. -/
structure Requirements where
  level : Option Int := none
  items : Option (List String) := none
  skills : Option (List String) := none
  location : Option String := none
deriving DecidableEq, Repr

/-- One effect's parameter dict: the keys `effect_data.get(...)` reads
across the effect vocabulary; absent keys are `none`. -/
structure EffectData where
  amount : Option Int := none
  item_id : Option String := none
  skill_id : Option String := none
  location_id : Option String := none
  npc_id : Option String := none
  dialogue_id : Option String := none
  weather : Option String := none
  duration : Option Int := none
  etype : Option String := none
  passage_id : Option String := none
  ability_id : Option String := none
  title : Option String := none
  target : Option String := none
  event_id : Option String := none
  secret_id : Option String := none
  quest_id : Option String := none
  value : Option Int := none
deriving DecidableEq, Repr

/-- game_types.Action (fields relevant to validation and execution;
`effects` and `cost` keep the source's dict iteration order). -/
structure Action where
  id : String
  name : String
  description : String
  action_type : String
  targets : List String := []
  requirements : Requirements := {}
  effects : List (String × EffectData) := []
  cost : List (String × Int) := []
deriving DecidableEq, Repr

/-- The level check at the top of `Action.can_perform`. -/
def level_fail (req : Requirements) (player : Entity) : Option String :=
  match req.level with
  | some lv =>
    if player.stats.level < lv then
      some s!"Requires level {lv}"
    else none
  | none => none

/-- One iteration of the resource-cost loop of `can_perform`: the
insufficiency test and message for a single named cost entry. -/
def costInsufficiency (player : Entity) (resource : String) (amount : Int) :
    Option String :=
  if resource == "mana" && player.stats.mana < amount then
    let have_ := player.stats.mana
    some s!"Not enough mana (need {amount}, have {have_})"
  else if resource == "health" && player.stats.health < amount then
    let have_ := player.stats.health
    some s!"Not enough health (need {amount}, have {have_})"
  else if resource == "gold" && player.gold < amount then
    let have_ := player.gold
    some s!"Not enough gold (need {amount}, have {have_})"
  else none

/-- The resource-cost loop of `can_perform` (first failing entry wins). -/
def cost_fail (player : Entity) : List (String × Int) → Option String
  | [] => none
  | (resource, amount) :: rest =>
    match costInsufficiency player resource amount with
    | some r => some r
    | none => cost_fail player rest

/-- The required-items loop of `can_perform`. -/
def items_fail (player : Entity) : List String → Option String
  | [] => none
  | item_id :: rest =>
    if item_id ∈ player.inventory then items_fail player rest
    else some s!"Missing required item: {item_id}"

/-- The required-skills loop of `can_perform`. -/
def skills_fail (player : Entity) : List String → Option String
  | [] => none
  | skill_id :: rest =>
    if skill_id ∈ player.skills then skills_fail player rest
    else some s!"Missing required skill: {skill_id}"

/-- The location check at the end of `can_perform`. -/
def location_fail (req : Requirements) (game_state : GameState) : Option String :=
  match req.location with
  | some loc =>
    if game_state.player_location ≠ loc then some s!"Must be at {loc}" else none
  | none => none

/-- game_types.Action.can_perform: the early-return sequence of checks,
returning `(True, "Action can be performed")` or `(False, reason)`. -/
def Action.can_perform (a : Action) (player : Entity) (game_state : GameState) :
    Bool × String :=
  match level_fail a.requirements player with
  | some r => (false, r)
  | none =>
  match cost_fail player a.cost with
  | some r => (false, r)
  | none =>
  match (match a.requirements.items with
         | some l => items_fail player l
         | none => none) with
  | some r => (false, r)
  | none =>
  match (match a.requirements.skills with
         | some l => skills_fail player l
         | none => none) with
  | some r => (false, r)
  | none =>
  match location_fail a.requirements game_state with
  | some r => (false, r)
  | none => (true, "Action can be performed")

/-- The cost-debit loop at the start of `Action.execute`.  The stamina
branch models `int(max_health * (amount / 100))` by exact integer
arithmetic truncated toward zero. -/
def apply_costs (player : Entity) (game_state : GameState) :
    List (String × Int) → Entity × GameState
  | [] => (player, game_state)
  | (resource, amount) :: rest =>
    let player' :=
      if resource == "mana" then
        { player with stats := { player.stats with mana := player.stats.mana - amount } }
      else if resource == "health" then
        { player with stats := { player.stats with health := player.stats.health - amount } }
      else if resource == "gold" then
        { player with gold := player.gold - amount }
      else if resource == "stamina" then
        let stamina_cost := Int.tdiv (player.stats.max_health * amount) 100
        { player with stats := { player.stats with
            health := max 1 (player.stats.health - stamina_cost) } }
      else player
    apply_costs player' game_state rest

/-- Ensure-key-then-append pattern used by several effects:
`if k not in temporary_effects: temporary_effects[k] = []` followed by
`temporary_effects[k].append(x)`.  Appending to a non-list value would
raise in Python, modeled as an error. -/
def tmpListAppend (te : List (String × TmpVal)) (k x : String) :
    Except String (List (String × TmpVal)) :=
  let te1 := if hasKey te k then te else dictSet te k (.strlist [])
  match lookupStore te1 k with
  | some (.strlist l) => .ok (dictSet te1 k (.strlist (l ++ [x])))
  | _ => .error ("AttributeError: " ++ apo ++ "append" ++ apo)

/-- One arm of the effect dispatch in `Action.execute`.  Unrecognized
tags fall through to the final no-op arm, exactly as the `elif` chain
(and the explicit `pass` arms) do in the source.  The `unlock_ability`
arm reproduces the source faithfully: after ensuring the
`"unlocked_abilities"` key in `temporary_effects`, the source appends to
`game_state.temporary_abilities`, an attribute `GameState` does not
define, which raises `AttributeError`. -/
def apply_effect (aid : String) (effect_type : String) (ed : EffectData)
    (player : Entity) (gs : GameState) : Except String (Entity × GameState) :=
  if effect_type == "heal" then
    let heal_amount := ed.amount.getD 0
    .ok ({ player with stats := { player.stats with
        health := min player.stats.max_health (player.stats.health + heal_amount) } }, gs)
  else if effect_type == "restore_mana" then
    let mana_amount := ed.amount.getD 0
    .ok ({ player with stats := { player.stats with
        mana := min player.stats.max_mana (player.stats.mana + mana_amount) } }, gs)
  else if effect_type == "add_gold" then
    .ok ({ player with gold := player.gold + ed.amount.getD 0 }, gs)
  else if effect_type == "add_experience" then
    .ok ({ player with stats := { player.stats with
        experience := player.stats.experience + ed.amount.getD 0 } }, gs)
  else if effect_type == "add_item" then
    match ed.item_id with
    | some item_id =>
      if item_id ∈ player.inventory then .ok (player, gs)
      else .ok ({ player with inventory := player.inventory ++ [item_id] }, gs)
    | none => .ok (player, gs)
  else if effect_type == "learn_skill" then
    match ed.skill_id with
    | some skill_id =>
      if skill_id ∈ player.skills then .ok (player, gs)
      else .ok ({ player with skills := player.skills ++ [skill_id] }, gs)
    | none => .ok (player, gs)
  else if effect_type == "move_to" then
    match ed.location_id with
    | some l => .ok (player, { gs with player_location := l })
    | none => .ok (player, gs)
  else if effect_type == "teleport_to" then
    match ed.location_id with
    | some l => .ok (player, { gs with player_location := l })
    | none => .ok (player, gs)
  else if effect_type == "unlock_location" then
    match ed.location_id with
    | some l =>
      if l ∈ gs.discovered_locations then .ok (player, gs)
      else .ok (player, { gs with discovered_locations := gs.discovered_locations ++ [l] })
    | none => .ok (player, gs)
  else if effect_type == "improve_relationship" then
    match ed.npc_id with
    | some npc_id =>
      let amount := ed.amount.getD 1
      let current := (lookupStore gs.npc_relationships npc_id).getD 0
      .ok (player, { gs with
          npc_relationships := dictSet gs.npc_relationships npc_id (current + amount) })
    | none => .ok (player, gs)
  else if effect_type == "gain_reputation" then
    let amount := ed.amount.getD 1
    let current := match lookupStore gs.temporary_effects "reputation" with
      | some (.int n) => n
      | _ => 0
    .ok (player, { gs with
        temporary_effects := dictSet gs.temporary_effects "reputation" (.int (current + amount)) })
  else if effect_type == "unlock_dialogue" then
    match ed.dialogue_id with
    | some d =>
      match tmpListAppend gs.temporary_effects "unlocked_dialogues" d with
      | .ok te => .ok (player, { gs with temporary_effects := te })
      | .error e => .error e
    | none => .ok (player, gs)
  else if effect_type == "change_weather" then
    .ok (player, { gs with
        temporary_effects := dictSet gs.temporary_effects "weather" (.str (ed.weather.getD "clear")) })
  else if effect_type == "create_light" then
    .ok (player, { gs with
        temporary_effects := dictSet gs.temporary_effects "light_source" (.int (ed.duration.getD 10)) })
  else if effect_type == "open_secret_passage" then
    match ed.passage_id with
    | some p =>
      match tmpListAppend gs.temporary_effects "open_passages" p with
      | .ok te => .ok (player, { gs with temporary_effects := te })
      | .error e => .error e
    | none => .ok (player, gs)
  else if effect_type == "invisibility" then
    .ok (player, { gs with
        temporary_effects := dictSet gs.temporary_effects "invisible" (.int (ed.duration.getD 5)) })
  else if effect_type == "flight" then
    .ok (player, { gs with
        temporary_effects := dictSet gs.temporary_effects "flying" (.int (ed.duration.getD 3)) })
  else if effect_type == "enhanced_senses" then
    .ok (player, { gs with
        temporary_effects := dictSet gs.temporary_effects "enhanced_senses" (.int (ed.duration.getD 10)) })
  else if effect_type == "protection" then
    let protection_type := ed.etype.getD "general"
    .ok (player, { gs with
        temporary_effects := dictSet gs.temporary_effects ("protection_" ++ protection_type)
          (.int (ed.duration.getD 5)) })
  else if effect_type == "unlock_ability" then
    match ed.ability_id with
    | some _ =>
      let te := if hasKey gs.temporary_effects "unlocked_abilities" then gs.temporary_effects
                else dictSet gs.temporary_effects "unlocked_abilities" (.strlist [])
      -- source: game_state.temporary_abilities.append(ability_id); GameState
      -- has no attribute temporary_abilities, so this raises
      let _ := te
      .error ("AttributeError: " ++ apo ++ "GameState" ++ apo ++
        " object has no attribute " ++ apo ++ "temporary_abilities" ++ apo)
    | none => .ok (player, gs)
  else if effect_type == "gain_title" then
    .ok (player, { gs with
        temporary_effects := dictSet gs.temporary_effects "title" (.str (ed.title.getD "Adventurer")) })
  else if effect_type == "establish_connection" then
    let connection_type := ed.etype.getD "general"
    let target := ed.target.getD "unknown"
    .ok (player, { gs with
        temporary_effects := dictSet gs.temporary_effects ("connection_" ++ connection_type) (.str target) })
  else if effect_type == "trigger_event" then
    match ed.event_id with
    | some event_id =>
      .ok (player, { gs with
          world_events := gs.world_events ++ [⟨event_id, aid, gs.timestamp⟩] })
    | none => .ok (player, gs)
  else if effect_type == "reveal_secret" then
    match ed.secret_id with
    | some sid =>
      match tmpListAppend gs.temporary_effects "revealed_secrets" sid with
      | .ok te => .ok (player, { gs with temporary_effects := te })
      | .error e => .error e
    | none => .ok (player, gs)
  else if effect_type == "advance_quest" then
    match ed.quest_id with
    | some q =>
      if q ∈ player.quests_in_progress then
        match tmpListAppend gs.temporary_effects "advanced_quests" q with
        | .ok te => .ok (player, { gs with temporary_effects := te })
        | .error e => .error e
      else .ok (player, gs)
    | none => .ok (player, gs)
  else if effect_type == "create_art" then
    let art_type := ed.etype.getD "painting"
    .ok (player, { gs with
        temporary_effects := dictSet gs.temporary_effects ("created_art_" ++ art_type)
          (.int (ed.value.getD 10)) })
  else if effect_type == "compose_song" then
    let song_type := ed.etype.getD "ballad"
    .ok (player, { gs with
        temporary_effects := dictSet gs.temporary_effects ("composed_song_" ++ song_type) (.bool true) })
  else if effect_type == "write_story" then
    let story_type := ed.etype.getD "tale"
    .ok (player, { gs with
        temporary_effects := dictSet gs.temporary_effects ("written_story_" ++ story_type) (.bool true) })
  else
    -- damage_enemy / buff_ally / debuff_enemy are explicit `pass` arms,
    -- and any tag outside the elif chain falls through: both are no-ops
    .ok (player, gs)

/-- The effect loop of `Action.execute`, in effect-map order. -/
def apply_effects (aid : String) (player : Entity) (gs : GameState) :
    List (String × EffectData) → Except String (Entity × GameState)
  | [] => .ok (player, gs)
  | (effect_type, ed) :: rest =>
    match apply_effect aid effect_type ed player gs with
    | .ok (p', g') => apply_effects aid p' g' rest
    | .error e => .error e

/-- game_types.Action.execute: re-checks `can_perform`; on denial returns
the failure with no mutation; otherwise debits costs, applies effects
and reports success.  A raised exception is the `.error` case. -/
def Action.execute (a : Action) (player : Entity) (game_state : GameState) :
    Except String (Bool × String × Entity × GameState) :=
  let cp := a.can_perform player game_state
  if cp.1 = false then
    .ok (false, cp.2, player, game_state)
  else
    let pg := apply_costs player game_state a.cost
    match apply_effects a.id pg.1 pg.2 a.effects with
    | .ok (p2, g2) => .ok (true, "Successfully performed " ++ a.name, p2, g2)
    | .error e => .error e

/-! ## Balance validator (src/engine.py, validate_game_balance and the
per-category `_validate_*_balance` helpers) -/

/-- A substructure of the system's consequence dicts
`{type, description, effect, severity}` (the `type` key is `ctype`). -/
structure Consequence where
  ctype : String
  description : String
  effect : String
  severity : String
deriving DecidableEq, Repr

/-- A Python value appearing in a proposed-modification map or stored as
an entity attribute. -/
inductive Val where
  | vstr (s : String)
  | vint (n : Int)
  | vbool (b : Bool)
  | vcons (c : Consequence)
deriving DecidableEq, Repr

/-- Python's `str(value)` for the values above (used by the magic-word
check, which runs `str(value).lower()`). -/
def Val.pyStr : Val → String
  | .vstr s => s
  | .vint n => toString n
  | .vbool b => if b then "True" else "False"
  | .vcons c => c.ctype

/-- game_types.Skill. -/
structure Skill where
  id : String
  name : String
  description : String
  skill_type : String
  target : String
  range : Int
  area_of_effect : Int
  cost : Int
deriving DecidableEq, Repr

/-- game_types.Item (`weight` is a float never read by the embedded
operations, kept as a rational). -/
structure Item where
  id : String
  name : String
  description : String
  cost : Int
  rarity : String
  weight : ℚ
  skill : Option Skill := none
deriving DecidableEq, Repr

/-- game_types.Quest — the fields read by the quest validator (the
remaining dataclass fields are not read by the embedded operations). -/
structure Quest where
  id : String
  name : String
  description : String
  level : Int
deriving DecidableEq, Repr

/-- The GameEngine stores read by the balance validators: the entity
dictionaries (locations and NPCs only ever have their key set tested, so
their id lists suffice) and the player returned by `get_player()`. -/
structure World where
  items : List (String × Item)
  skills : List (String × Skill)
  quests : List (String × Quest)
  location_ids : List String
  npc_ids : List String
  player : Entity
deriving Repr

/-- The `creative_scenarios` phrase list of `_calculate_ingenuity_score`. -/
def creative_scenarios : List String :=
  ["using", "using the", "with the", "to cut", "to carve", "to dig", "to pry",
   "breaking", "damaging", "wearing out", "dulling", "chipped", "cracked",
   "repurposing", "modifying", "altering", "customizing", "personalizing"]

/-- The `consequence_words` list of `_calculate_ingenuity_score`. -/
def consequence_words : List String :=
  ["break", "damage", "wear", "dull", "chip", "crack", "rust", "bend",
   "lose", "drop", "misplace", "forget", "leave behind"]

/-- engine._calculate_ingenuity_score, in tenths (source float increments
0.2 / 0.3 / 0.1 / 0.2 become 2 / 3 / 1 / 2; the clamp `min(score, 1.0)`
becomes `min _ 10`).  The `modifications` parameter is unused, exactly
as in the source. -/
def calculate_ingenuity_score (user_input : String)
    (_modifications : List (String × Val)) : Nat :=
  let input_lower := strLower user_input
  let s1 := 2 * (creative_scenarios.filter (fun w => strIn w input_lower)).length
  let s2 := s1 + 3 * (consequence_words.filter (fun w => strIn w input_lower)).length
  let s3 := if user_input.length > 50 then s2 + 1 else s2
  let s4 := if ["because", "since", "after", "while", "during"].any
                (fun w => strIn w input_lower) then s3 + 2 else s3
  min s4 10

/-- The `ingenious_patterns` catalogue of `_is_ingenious_modification`:
each pattern is the set of substrings all required in the input. -/
def ingenious_patterns : List (List String) :=
  [["using", "to cut", "food"], ["using", "to carve", "wood"],
   ["using", "to dig", "hole"], ["using", "to pry", "open"],
   ["breaking", "while", "using"], ["damaging", "during", "battle"],
   ["wearing out", "from", "use"], ["losing", "while", "traveling"],
   ["dropping", "in", "water"], ["rusting", "from", "moisture"]]

/-- engine._is_ingenious_modification (the `new_value` parameter is
unused, exactly as in the source body). -/
def is_ingenious_modification (user_input : String) (_new_value : Val)
    (ingenuity_score : Nat) : Bool :=
  let input_lower := strLower user_input
  ingenious_patterns.any (fun pattern => pattern.all (fun w => strIn w input_lower))
    || ingenuity_score ≥ 6

/-- engine._generate_consequence: keyword-family dispatch over the
justification text.  Every branch returns a non-empty dict in the
source, so the result is total (the caller's `if consequence:` test is
always true). -/
def generate_consequence (user_input : String) (item : Item)
    (_modifications : List (String × Val)) : Consequence :=
  let input_lower := strLower user_input
  if ["break", "damage", "crack", "chip"].any (fun w => strIn w input_lower) then
    ⟨"damage", "The " ++ item.name ++ " shows signs of wear and damage from your creative use.",
     "item_damaged", "minor"⟩
  else if ["dull", "wearing out", "blunt"].any (fun w => strIn w input_lower) then
    ⟨"deterioration", "The " ++ item.name ++ " has become dulled from overuse.",
     "item_dulled", "minor"⟩
  else if ["rust", "corrode", "water"].any (fun w => strIn w input_lower) then
    ⟨"corrosion", "The " ++ item.name ++ " has developed rust spots from exposure to moisture.",
     "item_rusted", "minor"⟩
  else if ["lose", "drop", "misplace"].any (fun w => strIn w input_lower) then
    ⟨"loss", "You realize the " ++ item.name ++ " is missing - perhaps lost during your adventures.",
     "item_lost", "major"⟩
  else if ["bend", "warp", "deform"].any (fun w => strIn w input_lower) then
    ⟨"deformation", "The " ++ item.name ++ " has been bent out of shape from improper use.",
     "item_bent", "moderate"⟩
  else
    ⟨"wear", "The " ++ item.name ++ " shows signs of creative use and wear.",
     "item_worn", "minor"⟩

/-- The field loop of `_validate_item_balance`.  An early `return False`
is the `.error reason` case (the returned map is then empty).  Note that
`"description"` is in the cosmetic allow-list, whose arm `continue`s, so
the later `field == "description"` arm (ingenuity gate, consequence
attachment and magic-word rejection) is unreachable; it is embedded
as written. -/
def item_field_loop (user_input : String) (item : Item)
    (modifications : List (String × Val)) (ingenuity_score : Nat)
    (filtered : List (String × Val)) :
    List (String × Val) → Except String (List (String × Val))
  | [] => .ok filtered
  | (fieldName, value) :: rest =>
    if fieldName ∈ ["description", "name"] then
      item_field_loop user_input item modifications ingenuity_score
        (dictSet filtered fieldName value) rest
    else if fieldName ∈ ["cost", "rarity"] then
      .error s!"Cannot modify {fieldName} - this would affect game balance"
    else if fieldName == "description" then
      if is_ingenious_modification user_input value ingenuity_score then
        let consequence := generate_consequence user_input item modifications
        item_field_loop user_input item modifications ingenuity_score
          (dictSet (dictSet filtered fieldName value) "_consequence" (.vcons consequence)) rest
      else if ["magic", "enchanted", "powerful", "legendary", "epic"].any
                (fun w => strIn w (strLower value.pyStr)) then
        .error "Cannot add magical properties to items through description changes"
      else
        item_field_loop user_input item modifications ingenuity_score
          (dictSet filtered fieldName value) rest
    else
      item_field_loop user_input item modifications ingenuity_score filtered rest

/-- engine._validate_item_balance. -/
def validate_item_balance (w : World) (target_id : String)
    (modifications : List (String × Val)) (user_input : String) :
    Bool × String × List (String × Val) :=
  match lookupStore w.items target_id with
  | none => (false, s!"Item {target_id} not found", [])
  | some item =>
    if target_id ∉ w.player.inventory then
      (false, "You don" ++ apo ++ "t own the item " ++ item.name, [])
    else
      let ingenuity_score := calculate_ingenuity_score user_input modifications
      match item_field_loop user_input item modifications ingenuity_score [] modifications with
      | .error r => (false, r, [])
      | .ok filtered =>
        if filtered.isEmpty then
          (false, "No valid modifications found. Consider cosmetic changes like description or name, or try more creative modifications with realistic consequences.", [])
        else
          (true, "Valid modifications", filtered)

/-- The `ingenious_skill_patterns` catalogue of
`_is_ingenious_skill_modification`. -/
def ingenious_skill_patterns : List (List String) :=
  [["overusing", "skill"], ["practicing", "too much"], ["learning", "new technique"],
   ["adapting", "skill"], ["forgetting", "how to"], ["improving", "technique"],
   ["developing", "bad habit"]]

/-- engine._is_ingenious_skill_modification (the `new_description`
parameter is unused, exactly as in the source body). -/
def is_ingenious_skill_modification (user_input : String)
    (_new_description : Val) : Bool :=
  let input_lower := strLower user_input
  ingenious_skill_patterns.any (fun pattern => pattern.all (fun w => strIn w input_lower))

/-- engine._generate_skill_consequence. -/
def generate_skill_consequence (user_input : String) (skill : Skill)
    (_modifications : List (String × Val)) : Consequence :=
  let input_lower := strLower user_input
  if ["overusing", "too much", "exhaustion"].any (fun w => strIn w input_lower) then
    ⟨"exhaustion", "Your " ++ skill.name ++ " has become exhausting from overuse.",
     "skill_exhausted", "minor"⟩
  else if ["forgetting", "losing", "rusty"].any (fun w => strIn w input_lower) then
    ⟨"rust", "Your " ++ skill.name ++ " has become rusty from lack of practice.",
     "skill_rusty", "minor"⟩
  else if ["bad habit", "wrong way", "incorrect"].any (fun w => strIn w input_lower) then
    ⟨"bad_habit", "You" ++ apo ++ "ve developed a bad habit with your " ++ skill.name ++ " technique.",
     "skill_bad_habit", "minor"⟩
  else
    ⟨"development", "Your " ++ skill.name ++ " has evolved through creative use.",
     "skill_evolved", "minor"⟩

/-- The field loop of `_validate_skill_balance`. -/
def skill_field_loop (filtered : List (String × Val)) :
    List (String × Val) → Except String (List (String × Val))
  | [] => .ok filtered
  | (fieldName, value) :: rest =>
    if fieldName ∈ ["description", "name"] then
      skill_field_loop (dictSet filtered fieldName value) rest
    else if fieldName ∈ ["cost", "skill_type", "target", "range", "area_of_effect"] then
      .error s!"Cannot modify {fieldName} - this would affect game balance"
    else
      skill_field_loop filtered rest

/-- engine._validate_skill_balance. -/
def validate_skill_balance (w : World) (target_id : String)
    (modifications : List (String × Val)) (user_input : String) :
    Bool × String × List (String × Val) :=
  match lookupStore w.skills target_id with
  | none => (false, s!"Skill {target_id} not found", [])
  | some skill =>
    if target_id ∉ w.player.skills then
      (false, "You don" ++ apo ++ "t have the skill " ++ skill.name, [])
    else
      let ingenuity_score := calculate_ingenuity_score user_input modifications
      match skill_field_loop [] modifications with
      | .error r => (false, r, [])
      | .ok filtered0 =>
        let filtered :=
          match lookupStore modifications "description" with
          | some descVal =>
            if ingenuity_score ≥ 5 &&
               is_ingenious_skill_modification user_input descVal then
              let consequence := generate_skill_consequence user_input skill modifications
              dictSet (dictSet filtered0 "description" descVal) "_consequence" (.vcons consequence)
            else filtered0
          | none => filtered0
        if filtered.isEmpty then
          (false, "No valid modifications found. Consider cosmetic changes like description or name, or try more creative skill modifications.", [])
        else
          (true, "Valid modifications", filtered)

/-- The field loop of `_validate_quest_balance`. -/
def quest_field_loop (filtered : List (String × Val)) :
    List (String × Val) → Except String (List (String × Val))
  | [] => .ok filtered
  | (fieldName, value) :: rest =>
    if fieldName ∈ ["description", "name"] then
      quest_field_loop (dictSet filtered fieldName value) rest
    else if fieldName ∈ ["reward", "objectives", "level"] then
      .error s!"Cannot modify {fieldName} - this would affect game balance"
    else
      quest_field_loop filtered rest

/-- engine._validate_quest_balance. -/
def validate_quest_balance (w : World) (target_id : String)
    (modifications : List (String × Val)) (_user_input : String) :
    Bool × String × List (String × Val) :=
  match lookupStore w.quests target_id with
  | none => (false, s!"Quest {target_id} not found", [])
  | some quest =>
    if target_id ∉ w.player.quests_in_progress then
      (false, "You don" ++ apo ++ "t have the quest " ++ quest.name ++ " active", [])
    else
      match quest_field_loop [] modifications with
      | .error r => (false, r, [])
      | .ok filtered =>
        if filtered.isEmpty then
          (false, "No valid modifications found. Consider cosmetic changes like description or name.", [])
        else
          (true, "Valid cosmetic modifications", filtered)

/-- The field loop of `_validate_location_balance`. -/
def location_field_loop (filtered : List (String × Val)) :
    List (String × Val) → Except String (List (String × Val))
  | [] => .ok filtered
  | (fieldName, value) :: rest =>
    if fieldName ∈ ["description", "name", "scene"] then
      location_field_loop (dictSet filtered fieldName value) rest
    else if fieldName ∈ ["npcs", "sub_locations", "shop_items", "entities_within"] then
      .error s!"Cannot modify {fieldName} - this would affect game structure"
    else
      location_field_loop filtered rest

/-- engine._validate_location_balance (no ownership check: locations are
only tested for existence). -/
def validate_location_balance (w : World) (target_id : String)
    (modifications : List (String × Val)) (_user_input : String) :
    Bool × String × List (String × Val) :=
  if target_id ∉ w.location_ids then
    (false, s!"Location {target_id} not found", [])
  else
    match location_field_loop [] modifications with
    | .error r => (false, r, [])
    | .ok filtered =>
      if filtered.isEmpty then
        (false, "No valid modifications found. Consider cosmetic changes like description, name, or scene.", [])
      else
        (true, "Valid cosmetic modifications", filtered)

/-- The field loop of `_validate_npc_balance`. -/
def npc_field_loop (filtered : List (String × Val)) :
    List (String × Val) → Except String (List (String × Val))
  | [] => .ok filtered
  | (fieldName, value) :: rest =>
    if fieldName ∈ ["description", "personality", "bio", "name"] then
      npc_field_loop (dictSet filtered fieldName value) rest
    else if fieldName ∈ ["location_id", "level", "quests_offered", "shop_items"] then
      .error s!"Cannot modify {fieldName} - this would affect game structure"
    else
      npc_field_loop filtered rest

/-- engine._validate_npc_balance. -/
def validate_npc_balance (w : World) (target_id : String)
    (modifications : List (String × Val)) (_user_input : String) :
    Bool × String × List (String × Val) :=
  if target_id ∉ w.npc_ids then
    (false, s!"NPC {target_id} not found", [])
  else
    match npc_field_loop [] modifications with
    | .error r => (false, r, [])
    | .ok filtered =>
      if filtered.isEmpty then
        (false, "No valid modifications found. Consider cosmetic changes like description, personality, or bio.", [])
      else
        (true, "Valid cosmetic modifications", filtered)

/-- engine.validate_game_balance: category dispatch; any other category
admits the proposed map unfiltered. -/
def validate_game_balance (w : World) (data_type target_id : String)
    (modifications : List (String × Val)) (user_input : String) :
    Bool × String × List (String × Val) :=
  if data_type == "item" then
    validate_item_balance w target_id modifications user_input
  else if data_type == "skill" then
    validate_skill_balance w target_id modifications user_input
  else if data_type == "quest" then
    validate_quest_balance w target_id modifications user_input
  else if data_type == "location" then
    validate_location_balance w target_id modifications user_input
  else if data_type == "npc" then
    validate_npc_balance w target_id modifications user_input
  else
    (true, "No balance validation for this data type", modifications)

/-- The per-category power-protected field sets, as rejected outright by
the validators above. -/
def powerFields (data_type : String) : List String :=
  if data_type == "item" then ["cost", "rarity"]
  else if data_type == "skill" then ["cost", "skill_type", "target", "range", "area_of_effect"]
  else if data_type == "quest" then ["reward", "objectives", "level"]
  else if data_type == "location" then ["npcs", "sub_locations", "shop_items", "entities_within"]
  else if data_type == "npc" then ["location_id", "level", "quests_offered", "shop_items"]
  else []

/-! ## Change tracker and reversion (game_types.ChangeTracker,
engine.revert_last_change, engine._apply_data_modifications) -/

/-- game_types.DataChange.  ISO timestamps compare chronologically as
strings; they are modeled as naturals with the same order. -/
structure DataChange where
  timestamp : Nat
  data_type : String
  target_id : String
  field_name : String
  old_value : Val
  new_value : Val
  user_input : String
  reasoning : String
deriving DecidableEq, Repr

/-- A live game object viewed as its Python attribute dictionary
(`getattr`/`setattr`/`hasattr` are lookup/assignment/membership on it). -/
abbrev Obj : Type := List (String × Val)

/-- The six entity dictionaries `revert_last_change` dispatches over. -/
structure Stores where
  locations : List (String × Obj)
  quests : List (String × Obj)
  items : List (String × Obj)
  npcs : List (String × Obj)
  skills : List (String × Obj)
  blueprints : List (String × Obj)
deriving DecidableEq

/-- ChangeTracker.get_changes_for: filter by category and/or target id;
an omitted (`None`, falsy) filter matches everything.  Order is
preserved, so the result is chronological like the log. -/
def get_changes_for (changes : List DataChange)
    (data_type target_id : Option String) : List DataChange :=
  let f1 := match data_type with
    | some dt => changes.filter (fun c => c.data_type == dt)
    | none => changes
  match target_id with
  | some t => f1.filter (fun c => c.target_id == t)
  | none => f1

/-- Python's `max(changes, key=lambda x: x.timestamp)`: left fold that
replaces the running best only on a strictly larger key (first maximum
wins on ties). -/
def maxByTimestamp (best : DataChange) : List DataChange → DataChange
  | [] => best
  | c :: rest =>
    maxByTimestamp (if best.timestamp < c.timestamp then c else best) rest

/-- Python's `list.remove(x)`: drop the first element equal to `x`
(dataclass equality is structural). -/
def removeFirst (x : DataChange) : List DataChange → List DataChange
  | [] => []
  | c :: rest => if c = x then rest else c :: removeFirst x rest

/-- Write a change's old value back onto the stored object:
`setattr(entity, field_name, old_value)` inside the store. -/
def storeRevert (store : List (String × Obj)) (c : DataChange) :
    List (String × Obj) :=
  match lookupStore store c.target_id with
  | some obj => dictSet store c.target_id (dictSet obj c.field_name c.old_value)
  | none => store

/-- engine.revert_last_change: pick the latest matching record, dispatch
on its category, write the old value back and drop the record; an
unknown category or a vanished target fails with everything unchanged.
Returns (success, stores, change log). -/
def revert_last_change (st : Stores) (changes : List DataChange)
    (data_type target_id : Option String) : Bool × Stores × List DataChange :=
  match get_changes_for changes data_type target_id with
  | [] => (false, st, changes)
  | c0 :: rest =>
    let latest := maxByTimestamp c0 rest
    if latest.data_type == "location" && hasKey st.locations latest.target_id then
      (true, { st with locations := storeRevert st.locations latest },
       removeFirst latest changes)
    else if latest.data_type == "quest" && hasKey st.quests latest.target_id then
      (true, { st with quests := storeRevert st.quests latest },
       removeFirst latest changes)
    else if latest.data_type == "item" && hasKey st.items latest.target_id then
      (true, { st with items := storeRevert st.items latest },
       removeFirst latest changes)
    else if latest.data_type == "npc" && hasKey st.npcs latest.target_id then
      (true, { st with npcs := storeRevert st.npcs latest },
       removeFirst latest changes)
    else if latest.data_type == "skill" && hasKey st.skills latest.target_id then
      (true, { st with skills := storeRevert st.skills latest },
       removeFirst latest changes)
    else if latest.data_type == "blueprint" && hasKey st.blueprints latest.target_id then
      (true, { st with blueprints := storeRevert st.blueprints latest },
       removeFirst latest changes)
    else
      (false, st, changes)

/-- The condition under which the dispatch of `revert_last_change` finds
a live entity for a record. -/
def target_exists (st : Stores) (c : DataChange) : Bool :=
  (c.data_type == "location" && hasKey st.locations c.target_id) ||
  (c.data_type == "quest" && hasKey st.quests c.target_id) ||
  (c.data_type == "item" && hasKey st.items c.target_id) ||
  (c.data_type == "npc" && hasKey st.npcs c.target_id) ||
  (c.data_type == "skill" && hasKey st.skills c.target_id) ||
  (c.data_type == "blueprint" && hasKey st.blueprints c.target_id)

/-- Read an attribute of the live entity a record points at, through the
same category dispatch. -/
def entity_field (st : Stores) (c : DataChange) : Option Val :=
  let store :=
    if c.data_type == "location" then some st.locations
    else if c.data_type == "quest" then some st.quests
    else if c.data_type == "item" then some st.items
    else if c.data_type == "npc" then some st.npcs
    else if c.data_type == "skill" then some st.skills
    else if c.data_type == "blueprint" then some st.blueprints
    else none
  match store with
  | some s => match lookupStore s c.target_id with
    | some obj => lookupStore obj c.field_name
    | none => none
  | none => none

/-- The blueprint branch of engine._apply_data_modifications: for each
admitted field the blueprint object has (`hasattr`), overwrite it
(`setattr`) and append a DataChange to the tracker. -/
def apply_obj_mods (obj : Obj) (tracker : List DataChange)
    (data_type target_id user_input reasoning : String) (now : Nat) :
    List (String × Val) → Obj × List DataChange
  | [] => (obj, tracker)
  | (fieldName, value) :: rest =>
    if hasKey obj fieldName then
      let old_value := (lookupStore obj fieldName).getD value
      apply_obj_mods (dictSet obj fieldName value)
        (tracker ++ [DataChange.mk now data_type target_id fieldName old_value value
                      user_input reasoning])
        data_type target_id user_input reasoning now rest
    else
      apply_obj_mods obj tracker data_type target_id user_input reasoning now rest

/-! ## Conversation state machine (src/ai_conversation.py,
engine.talk_to_npc and its helpers) -/

/-- game_types.DynamicExchange (similarity scores are rationals in
[0,1]; timestamps are modeled as naturals). -/
structure DynamicExchange where
  player_input : String
  npc_response : String
  similarity_score : ℚ
  is_essential : Bool
  created_at : Nat
deriving DecidableEq, Repr

/-- game_types.ConversationState. -/
structure ConversationState where
  npc_id : String
  conversation_history : List DynamicExchange
  essential_topics_created : List String
  relationship_level : Int
  max_questions_remaining : Int
  last_interaction : Nat
deriving DecidableEq, Repr

/-- The slice of game_types.NPC read by the conversation path:
`dialogue_tree.get("topics"/"responses"/"conversation_starters", ...)`
are modeled as direct fields (with the `.get` defaults folded in). -/
structure NPCConv where
  id : String
  name : String
  topics : List String
  responses : List (String × String)
  conversation_starters : List (String × String)
deriving DecidableEq, Repr

/-- Strategy returned by the oracle's conversation analysis. -/
inductive Strategy where
  | preset
  | redirect
  | dynamic
deriving DecidableEq, Repr

/-- The analysis dict assembled by
`AIConversationHandler.analyze_conversation_input` (the oracle's reply
after clamping/defaulting). -/
structure Analysis where
  strategy : Strategy
  similarity_score : ℚ
  preset_topic : Option String
  is_essential : Bool
  npc_response : String
deriving DecidableEq, Repr

/-- Which line `talk_to_npc` prints for the player's input. -/
inductive TalkReply where
  | tired
  | confused
  | scripted (starter response : String)
  | presetReply (response : String)
  | redirectReply (response : String)
  | dynamicReply (response : String)
deriving DecidableEq, Repr

/-- AIConversationHandler.update_conversation_state: append the
exchange, bump relationship and topic list if essential, decrement the
budget floored at 0, refresh the timestamp. -/
def update_conversation_state (now : Nat) (cs : ConversationState)
    (player_input npc_response : String) (similarity_score : ℚ)
    (is_essential : Bool) : ConversationState :=
  let cs1 := { cs with conversation_history := cs.conversation_history ++
      [DynamicExchange.mk player_input npc_response similarity_score is_essential now] }
  let cs2 :=
    if is_essential then
      { cs1 with relationship_level := cs1.relationship_level + 1,
                 essential_topics_created := cs1.essential_topics_created ++ [player_input] }
    else cs1
  { cs2 with max_questions_remaining := max 0 (cs2.max_questions_remaining - 1),
             last_interaction := now }

/-- Python `'_'` to space replacement used for humanized topic names. -/
def humanizeTopic (topic : String) : String :=
  ⟨topic.data.map (fun c => if c = '_' then ' ' else c)⟩

/-- engine._match_preset_topic: exact name, humanized name, then
1-based index. -/
def match_preset_topic (player_input : String) (npc : NPCConv) :
    Option String :=
  let player_input_lower := strStrip (strLower player_input)
  match npc.topics.find? (fun topic => strLower topic == player_input_lower) with
  | some topic => some topic
  | none =>
  match npc.topics.find?
      (fun topic => strLower (humanizeTopic topic) == player_input_lower) with
  | some topic => some topic
  | none =>
  match pyInt player_input_lower with
  | some n =>
    let topic_index := n - 1
    if 0 ≤ topic_index ∧ topic_index < npc.topics.length then
      npc.topics.get? topic_index.toNat
    else none
  | none => none

/-- engine._is_invalid_conversation_input: the triviality screen. -/
def is_invalid_conversation_input (player_input : String) : Bool :=
  if player_input == "" then true
  else
    let cleaned_input := strStrip player_input
    if cleaned_input.length < 3 then true
    else if !(strIn " " cleaned_input) then true
    else if cleaned_input.data.all Char.isDigit then true
    else if cleaned_input.length < 5 && !(cleaned_input.data.any Char.isAlpha) then true
    else false

/-- Default conversation starter for a scripted topic
(`conversation_starters.get(topic, f"Tell me about {...}!")`). -/
def starterFor (npc : NPCConv) (topic : String) : String :=
  match lookupStore npc.conversation_starters topic with
  | some s => s
  | none => "Tell me about " ++ humanizeTopic topic ++ "!"

/-- Scripted response for a topic
(`responses.get(topic, "I'm not sure about that.")`). -/
def responseFor (npc : NPCConv) (topic : String) : String :=
  match lookupStore npc.responses topic with
  | some s => s
  | none => "I" ++ apo ++ "m not sure about that."

/-- Response lookup for the oracle's `preset` strategy, where the topic
key may be absent (`None`). -/
def presetResponseFor (npc : NPCConv) (topic : Option String) : String :=
  match topic with
  | some t => responseFor npc t
  | none => "I" ++ apo ++ "m not sure about that."

/-- One conversation turn of engine.talk_to_npc for a non-empty player
input, after the conversation state exists.  In source order: the
exhausted-budget gate, the scripted-topic match
(`_handle_preset_topic`), the triviality screen, then the oracle
dispatch.  The oracle's analysis and the dynamically generated response
are passed in as parameters; the returned flag records whether the turn
reached an oracle call. -/
def talk_turn (now : Nat) (npc : NPCConv) (cs : ConversationState)
    (player_input : String) (analysis : Analysis) (dynamic_response : String) :
    TalkReply × ConversationState × Bool :=
  if cs.max_questions_remaining ≤ 0 then
    (.tired, cs, false)
  else
    match match_preset_topic player_input npc with
    | some topic =>
      let starter := starterFor npc topic
      let response := responseFor npc topic
      (.scripted starter response,
       update_conversation_state now cs starter response 1 false, false)
    | none =>
      if is_invalid_conversation_input player_input then
        (.confused, cs, false)
      else
        match analysis.strategy with
        | .preset =>
          let response := presetResponseFor npc analysis.preset_topic
          (.presetReply response,
           update_conversation_state now cs player_input response
             analysis.similarity_score analysis.is_essential, true)
        | .redirect =>
          (.redirectReply analysis.npc_response,
           update_conversation_state now cs player_input analysis.npc_response
             analysis.similarity_score analysis.is_essential, true)
        | .dynamic =>
          (.dynamicReply dynamic_response,
           update_conversation_state now cs player_input dynamic_response
             analysis.similarity_score analysis.is_essential, true)

/-! ## Specification-side reformulation of `can_perform` (for the
ordering/first-failure claim) -/

/-- From the spec's words: the ordered list of checks `canPerform` runs —
the level floor, then one insufficiency check per named resource cost in
cost-map order, then one presence check per required item, then per
required skill, then the location-equality check. -/
def canPerformChecks (a : Action) (player : Entity) (game_state : GameState) :
    List (Option String) :=
  [level_fail a.requirements player]
  ++ a.cost.map (fun rc => costInsufficiency player rc.1 rc.2)
  ++ (a.requirements.items.getD []).map (fun item_id =>
        if item_id ∈ player.inventory then none
        else some s!"Missing required item: {item_id}")
  ++ (a.requirements.skills.getD []).map (fun skill_id =>
        if skill_id ∈ player.skills then none
        else some s!"Missing required skill: {skill_id}")
  ++ [location_fail a.requirements game_state]

/-- First failing check of an ordered check list. -/
def firstFailure : List (Option String) → Option String
  | [] => none
  | none :: rest => firstFailure rest
  | some r :: _ => some r

/-- From the spec's words: `canPerform` is Denied with the reason of the
first failing check, Allowed otherwise; deterministic in the snapshot. -/
def canPerformSpec (a : Action) (player : Entity) (game_state : GameState) :
    Bool × String :=
  match firstFailure (canPerformChecks a player game_state) with
  | some r => (false, r)
  | none => (true, "Action can be performed")

/-! ## Concrete test fixtures -/

/-- A small stat block for concrete evaluations. -/
def statsFix : Stats :=
  { health := 30, max_health := 30, mana := 10, max_mana := 10, level := 3,
    experience := 0 }

/-- A player owning a sword, one skill and one active quest. -/
def playerFix : Entity :=
  { id := "player", name := "Hero", stats := statsFix, inventory := ["sword"],
    skills := ["swordplay"], quests_in_progress := ["first_errand"], gold := 100 }

/-- A concrete game state at the village. -/
def gsFix : GameState :=
  { timestamp := "t0", player_location := "village", discovered_locations := ["village"],
    npc_relationships := [], world_events := [], temporary_effects := [] }

/-- The owned sword item. -/
def swordFix : Item :=
  { id := "sword", name := "sword", description := "A trusty blade.",
    cost := 50, rarity := "common", weight := 3 }

/-- The known skill. -/
def swordplayFix : Skill :=
  { id := "swordplay", name := "Swordplay", description := "Sword technique.",
    skill_type := "active", target := "one_enemy", range := 1,
    area_of_effect := 0, cost := 2 }

/-- The active quest. -/
def errandFix : Quest :=
  { id := "first_errand", name := "First Errand", description := "Run an errand.",
    level := 1 }

/-- A world with the sword, the skill, the quest, one location and one NPC. -/
def worldFix : World :=
  { items := [("sword", swordFix)], skills := [("swordplay", swordplayFix)],
    quests := [("first_errand", errandFix)], location_ids := ["village"],
    npc_ids := ["elder"], player := playerFix }

/-- Scenario A's justification text. -/
def scenarioAInput : String := "I used my sword to cut my food and it chipped"

/-- Scenario A's proposed description value. -/
def scenarioADesc : Val := .vstr "A chipped sword, worn from cutting food."

/-- Scenario A's proposed field map. -/
def scenarioAMods : List (String × Val) := [("description", scenarioADesc)]

/-- A proposed description that itself claims power vocabulary. -/
def magicDesc : Val := .vstr "a magic sword"

/-- An action denied by its level floor (for the denial witness). -/
def deniedAction : Action :=
  { id := "ritual", name := "Grand Ritual", description := "A high ritual.",
    action_type := "magic", requirements := { level := some 5 } }

/-- A validated action whose only effect is `unlock_ability` (the
effect arm that reads the missing `temporary_abilities` attribute). -/
def unlockAction : Action :=
  { id := "shadow_pact", name := "Shadow Pact", description := "Grants an ability.",
    action_type := "magic",
    effects := [("unlock_ability", { ability_id := some "shadow_step" })] }

/-- The message of the exception raised by the `unlock_ability` arm. -/
def unlockAbilityError : String :=
  "AttributeError: " ++ apo ++ "GameState" ++ apo ++
    " object has no attribute " ++ apo ++ "temporary_abilities" ++ apo

/-- An NPC with no scripted topics. -/
def npcEmptyFix : NPCConv :=
  { id := "elder", name := "Elder", topics := [], responses := [],
    conversation_starters := [] }

/-- A conversation state with an exhausted question budget. -/
def csExhaustedFix : ConversationState :=
  { npc_id := "elder", conversation_history := [], essential_topics_created := [],
    relationship_level := 0, max_questions_remaining := 0, last_interaction := 0 }

/-- A conversation state with budget 3. -/
def csActiveFix : ConversationState :=
  { npc_id := "elder", conversation_history := [], essential_topics_created := [],
    relationship_level := 0, max_questions_remaining := 3, last_interaction := 0 }

/-- An arbitrary oracle analysis used where the turn must not consult it. -/
def analysisFix : Analysis :=
  { strategy := .dynamic, similarity_score := 0, preset_topic := none,
    is_essential := false, npc_response := "Hmm." }

/-- A blueprint object (attribute dictionary) for the modification claim. -/
def blueprintFix : Obj :=
  [("id", .vstr "iron_blade"), ("name", .vstr "Iron Blade"),
   ("resulting_item", .vstr "sword"), ("required_skills", .vstr "smithing")]

/-- A one-record change log over the sword's description. -/
def changeFix : DataChange :=
  { timestamp := 5, data_type := "item", target_id := "sword",
    field_name := "description", old_value := .vstr "A trusty blade.",
    new_value := .vstr "A chipped blade.", user_input := scenarioAInput,
    reasoning := "creative use" }

/-- Stores holding the sword as a live object. -/
def storesFix : Stores :=
  { locations := [], quests := [],
    items := [("sword", [("id", .vstr "sword"), ("description", .vstr "A chipped blade.")])],
    npcs := [], skills := [], blueprints := [] }

/-- Stores from which the sword has been deleted. -/
def storesNoSwordFix : Stores :=
  { locations := [], quests := [], items := [], npcs := [], skills := [],
    blueprints := [] }

/-! ## Supporting lemmas -/

theorem lookupStore_dictSet_self {α : Type} (m : List (String × α)) (k : String)
    (v : α) : lookupStore (dictSet m k v) k = some v := by
  induction m with
  | nil => simp [dictSet, lookupStore, List.find?]
  | cons p ps ih =>
    by_cases h : p.1 = k
    · simp [dictSet, lookupStore, List.find?, h]
    · have hb : (p.1 == k) = false := beq_eq_false_iff_ne.mpr h
      simp only [dictSet, hb, Bool.false_eq_true, if_false]
      simpa [lookupStore, List.find?, hb] using ih

theorem lookupStore_dictSet_ne {α : Type} (m : List (String × α)) (k f : String)
    (v : α) (h : f ≠ k) :
    lookupStore (dictSet m k v) f = lookupStore m f := by
  induction m with
  | nil =>
    have hb : (k == f) = false := beq_eq_false_iff_ne.mpr (Ne.symm h)
    simp [dictSet, lookupStore, List.find?, hb]
  | cons p ps ih =>
    by_cases hp : p.1 = k
    · have hb : (p.1 == k) = true := beq_iff_eq.mpr hp
      have hbf : (k == f) = false := beq_eq_false_iff_ne.mpr (Ne.symm h)
      have hpf : (p.1 == f) = false := by
        subst hp; exact hbf
      simp [dictSet, lookupStore, List.find?, hb, hbf, hpf]
    · have hb : (p.1 == k) = false := beq_eq_false_iff_ne.mpr hp
      simp only [dictSet, hb, Bool.false_eq_true, if_false]
      by_cases hf : p.1 = f
      · have hbf : (p.1 == f) = true := beq_iff_eq.mpr hf
        simp [lookupStore, List.find?, hbf]
      · have hbf : (p.1 == f) = false := beq_eq_false_iff_ne.mpr hf
        simpa [lookupStore, List.find?, hbf] using ih

theorem hasKey_of_lookup {α : Type} (m : List (String × α)) (k : String) (v : α)
    (h : lookupStore m k = some v) : hasKey m k = true := by
  unfold lookupStore at h
  unfold hasKey
  cases hf : m.find? (fun p => p.1 == k) with
  | none => rw [hf] at h; simp at h
  | some p => simp [hf]

theorem lookup_of_hasKey {α : Type} (m : List (String × α)) (k : String)
    (h : hasKey m k = true) : ∃ v, lookupStore m k = some v := by
  unfold hasKey at h
  unfold lookupStore
  cases hf : m.find? (fun p => p.1 == k) with
  | none => rw [hf] at h; simp at h
  | some p => exact ⟨p.2, by simp [hf]⟩

theorem item_loop_keeps_absent (ui : String) (item : Item)
    (am : List (String × Val)) (sc : Nat) (f : String)
    (hf : f ∉ (["description", "name"] : List String)) :
    ∀ (mods filtered out : List (String × Val)),
      item_field_loop ui item am sc filtered mods = Except.ok out →
      lookupStore filtered f = none → lookupStore out f = none := by
  intro mods
  induction mods with
  | nil =>
    intro filtered out h hn
    simp only [item_field_loop] at h
    cases h
    exact hn
  | cons pv rest ih =>
    obtain ⟨fieldName, value⟩ := pv
    intro filtered out h hn
    simp only [item_field_loop] at h
    by_cases h1 : fieldName ∈ (["description", "name"] : List String)
    · rw [if_pos h1] at h
      refine ih _ _ h ?_
      have hne : f ≠ fieldName := fun e => hf (e ▸ h1)
      rw [lookupStore_dictSet_ne _ _ _ _ hne]
      exact hn
    · rw [if_neg h1] at h
      by_cases h2 : fieldName ∈ (["cost", "rarity"] : List String)
      · rw [if_pos h2] at h
        cases h
      · rw [if_neg h2] at h
        by_cases h3 : fieldName = "description"
        · exact absurd (by simp [h3]) h1
        · have h3b : (fieldName == "description") = false := beq_eq_false_iff_ne.mpr h3
          rw [h3b] at h
          simp only [Bool.false_eq_true, if_false] at h
          exact ih _ _ h hn

theorem skill_loop_keeps_absent (f : String)
    (hf : f ∉ (["description", "name"] : List String)) :
    ∀ (mods filtered out : List (String × Val)),
      skill_field_loop filtered mods = Except.ok out →
      lookupStore filtered f = none → lookupStore out f = none := by
  intro mods
  induction mods with
  | nil =>
    intro filtered out h hn
    simp only [skill_field_loop] at h
    cases h
    exact hn
  | cons pv rest ih =>
    obtain ⟨fieldName, value⟩ := pv
    intro filtered out h hn
    simp only [skill_field_loop] at h
    by_cases h1 : fieldName ∈ (["description", "name"] : List String)
    · rw [if_pos h1] at h
      refine ih _ _ h ?_
      have hne : f ≠ fieldName := fun e => hf (e ▸ h1)
      rw [lookupStore_dictSet_ne _ _ _ _ hne]
      exact hn
    · rw [if_neg h1] at h
      by_cases h2 : fieldName ∈
          (["cost", "skill_type", "target", "range", "area_of_effect"] : List String)
      · rw [if_pos h2] at h
        cases h
      · rw [if_neg h2] at h
        exact ih _ _ h hn

theorem quest_loop_keeps_absent (f : String)
    (hf : f ∉ (["description", "name"] : List String)) :
    ∀ (mods filtered out : List (String × Val)),
      quest_field_loop filtered mods = Except.ok out →
      lookupStore filtered f = none → lookupStore out f = none := by
  intro mods
  induction mods with
  | nil =>
    intro filtered out h hn
    simp only [quest_field_loop] at h
    cases h
    exact hn
  | cons pv rest ih =>
    obtain ⟨fieldName, value⟩ := pv
    intro filtered out h hn
    simp only [quest_field_loop] at h
    by_cases h1 : fieldName ∈ (["description", "name"] : List String)
    · rw [if_pos h1] at h
      refine ih _ _ h ?_
      have hne : f ≠ fieldName := fun e => hf (e ▸ h1)
      rw [lookupStore_dictSet_ne _ _ _ _ hne]
      exact hn
    · rw [if_neg h1] at h
      by_cases h2 : fieldName ∈ (["reward", "objectives", "level"] : List String)
      · rw [if_pos h2] at h
        cases h
      · rw [if_neg h2] at h
        exact ih _ _ h hn

theorem location_loop_keeps_absent (f : String)
    (hf : f ∉ (["description", "name", "scene"] : List String)) :
    ∀ (mods filtered out : List (String × Val)),
      location_field_loop filtered mods = Except.ok out →
      lookupStore filtered f = none → lookupStore out f = none := by
  intro mods
  induction mods with
  | nil =>
    intro filtered out h hn
    simp only [location_field_loop] at h
    cases h
    exact hn
  | cons pv rest ih =>
    obtain ⟨fieldName, value⟩ := pv
    intro filtered out h hn
    simp only [location_field_loop] at h
    by_cases h1 : fieldName ∈ (["description", "name", "scene"] : List String)
    · rw [if_pos h1] at h
      refine ih _ _ h ?_
      have hne : f ≠ fieldName := fun e => hf (e ▸ h1)
      rw [lookupStore_dictSet_ne _ _ _ _ hne]
      exact hn
    · rw [if_neg h1] at h
      by_cases h2 : fieldName ∈
          (["npcs", "sub_locations", "shop_items", "entities_within"] : List String)
      · rw [if_pos h2] at h
        cases h
      · rw [if_neg h2] at h
        exact ih _ _ h hn

theorem npc_loop_keeps_absent (f : String)
    (hf : f ∉ (["description", "personality", "bio", "name"] : List String)) :
    ∀ (mods filtered out : List (String × Val)),
      npc_field_loop filtered mods = Except.ok out →
      lookupStore filtered f = none → lookupStore out f = none := by
  intro mods
  induction mods with
  | nil =>
    intro filtered out h hn
    simp only [npc_field_loop] at h
    cases h
    exact hn
  | cons pv rest ih =>
    obtain ⟨fieldName, value⟩ := pv
    intro filtered out h hn
    simp only [npc_field_loop] at h
    by_cases h1 : fieldName ∈ (["description", "personality", "bio", "name"] : List String)
    · rw [if_pos h1] at h
      refine ih _ _ h ?_
      have hne : f ≠ fieldName := fun e => hf (e ▸ h1)
      rw [lookupStore_dictSet_ne _ _ _ _ hne]
      exact hn
    · rw [if_neg h1] at h
      by_cases h2 : fieldName ∈
          (["location_id", "level", "quests_offered", "shop_items"] : List String)
      · rw [if_pos h2] at h
        cases h
      · rw [if_neg h2] at h
        exact ih _ _ h hn

theorem validate_item_no_power (w : World) (t : String)
    (mods : List (String × Val)) (ui : String) (f : String)
    (hf : f ∈ (["cost", "rarity"] : List String)) :
    lookupStore (validate_item_balance w t mods ui).2.2 f = none := by
  have hcos : f ∉ (["description", "name"] : List String) := by
    simp only [List.mem_cons, List.mem_singleton, List.not_mem_nil] at hf ⊢
    rcases hf with rfl | rfl | h
    · decide
    · decide
    · exact absurd h (by simp)
  simp only [validate_item_balance]
  split
  · rfl
  next item _ =>
    split
    · rfl
    next hown =>
      split
      · rfl
      next filtered he =>
        split
        · rfl
        next hemp =>
          exact item_loop_keeps_absent ui item mods _ f hcos mods [] filtered he rfl

theorem validate_skill_no_power (w : World) (t : String)
    (mods : List (String × Val)) (ui : String) (f : String)
    (hf : f ∈ (["cost", "skill_type", "target", "range", "area_of_effect"] : List String)) :
    lookupStore (validate_skill_balance w t mods ui).2.2 f = none := by
  have hcos : f ∉ (["description", "name"] : List String) := by
    simp only [List.mem_cons, List.mem_singleton, List.not_mem_nil] at hf ⊢
    rcases hf with rfl | rfl | rfl | rfl | rfl | h
    · decide
    · decide
    · decide
    · decide
    · decide
    · exact absurd h (by simp)
  have hfd : f ≠ "description" := by
    intro e; exact hcos (by simp [e])
  have hfc : f ≠ "_consequence" := by
    simp only [List.mem_cons, List.mem_singleton, List.not_mem_nil] at hf
    rcases hf with rfl | rfl | rfl | rfl | rfl | h
    · decide
    · decide
    · decide
    · decide
    · decide
    · exact absurd h (by simp)
  simp only [validate_skill_balance]
  split
  · rfl
  next skill _ =>
    split
    · rfl
    next hown =>
      split
      · rfl
      next filtered0 he =>
        have h0 : lookupStore filtered0 f = none :=
          skill_loop_keeps_absent f hcos mods [] filtered0 he rfl
        split
        · rfl
        next hemp =>
          split
          next descVal hd =>
            split
            next hing =>
              rw [lookupStore_dictSet_ne _ _ _ _ hfc,
                  lookupStore_dictSet_ne _ _ _ _ hfd]
              exact h0
            next hing => exact h0
          next hd => exact h0

theorem validate_quest_no_power (w : World) (t : String)
    (mods : List (String × Val)) (ui : String) (f : String)
    (hf : f ∈ (["reward", "objectives", "level"] : List String)) :
    lookupStore (validate_quest_balance w t mods ui).2.2 f = none := by
  have hcos : f ∉ (["description", "name"] : List String) := by
    simp only [List.mem_cons, List.mem_singleton, List.not_mem_nil] at hf ⊢
    rcases hf with rfl | rfl | rfl | h
    · decide
    · decide
    · decide
    · exact absurd h (by simp)
  simp only [validate_quest_balance]
  split
  · rfl
  next quest _ =>
    split
    · rfl
    next hown =>
      split
      · rfl
      next filtered he =>
        split
        · rfl
        next hemp =>
          exact quest_loop_keeps_absent f hcos mods [] filtered he rfl

theorem validate_location_no_power (w : World) (t : String)
    (mods : List (String × Val)) (ui : String) (f : String)
    (hf : f ∈ (["npcs", "sub_locations", "shop_items", "entities_within"] : List String)) :
    lookupStore (validate_location_balance w t mods ui).2.2 f = none := by
  have hcos : f ∉ (["description", "name", "scene"] : List String) := by
    simp only [List.mem_cons, List.mem_singleton, List.not_mem_nil] at hf ⊢
    rcases hf with rfl | rfl | rfl | rfl | h
    · decide
    · decide
    · decide
    · decide
    · exact absurd h (by simp)
  simp only [validate_location_balance]
  split
  · rfl
  next hex =>
    split
    · rfl
    next filtered he =>
      split
      · rfl
      next hemp =>
        exact location_loop_keeps_absent f hcos mods [] filtered he rfl

theorem validate_npc_no_power (w : World) (t : String)
    (mods : List (String × Val)) (ui : String) (f : String)
    (hf : f ∈ (["location_id", "level", "quests_offered", "shop_items"] : List String)) :
    lookupStore (validate_npc_balance w t mods ui).2.2 f = none := by
  have hcos : f ∉ (["description", "personality", "bio", "name"] : List String) := by
    simp only [List.mem_cons, List.mem_singleton, List.not_mem_nil] at hf ⊢
    rcases hf with rfl | rfl | rfl | rfl | h
    · decide
    · decide
    · decide
    · decide
    · exact absurd h (by simp)
  simp only [validate_npc_balance]
  split
  · rfl
  next hex =>
    split
    · rfl
    next filtered he =>
      split
      · rfl
      next hemp =>
        exact npc_loop_keeps_absent f hcos mods [] filtered he rfl

theorem firstFailure_append (xs ys : List (Option String)) :
    firstFailure (xs ++ ys) =
      match firstFailure xs with
      | some r => some r
      | none => firstFailure ys := by
  induction xs with
  | nil => rfl
  | cons o rest ih =>
    cases o with
    | none => simpa [firstFailure] using ih
    | some r => rfl

theorem cost_fail_eq (player : Entity) (l : List (String × Int)) :
    cost_fail player l =
      firstFailure (l.map (fun rc => costInsufficiency player rc.1 rc.2)) := by
  induction l with
  | nil => rfl
  | cons rc rest ih =>
    obtain ⟨resource, amount⟩ := rc
    simp only [cost_fail, List.map_cons]
    cases h : costInsufficiency player resource amount with
    | none => simpa [firstFailure, h] using ih
    | some r => simp [firstFailure, h]

theorem items_fail_eq (player : Entity) (l : List String) :
    items_fail player l =
      firstFailure (l.map (fun item_id =>
        if item_id ∈ player.inventory then none
        else some s!"Missing required item: {item_id}")) := by
  induction l with
  | nil => rfl
  | cons i rest ih =>
    simp only [items_fail, List.map_cons]
    by_cases h : i ∈ player.inventory
    · simpa [firstFailure, h] using ih
    · simp [firstFailure, h]

theorem skills_fail_eq (player : Entity) (l : List String) :
    skills_fail player l =
      firstFailure (l.map (fun skill_id =>
        if skill_id ∈ player.skills then none
        else some s!"Missing required skill: {skill_id}")) := by
  induction l with
  | nil => rfl
  | cons i rest ih =>
    simp only [skills_fail, List.map_cons]
    by_cases h : i ∈ player.skills
    · simpa [firstFailure, h] using ih
    · simp [firstFailure, h]

theorem maxByTimestamp_mem (l : List DataChange) :
    ∀ best, maxByTimestamp best l = best ∨ maxByTimestamp best l ∈ l := by
  induction l with
  | nil => intro best; left; rfl
  | cons c rest ih =>
    intro best
    simp only [maxByTimestamp]
    rcases ih (if best.timestamp < c.timestamp then c else best) with h | h
    · rw [h]
      by_cases hlt : best.timestamp < c.timestamp
      · right; simp [hlt]
      · left; simp [hlt]
    · right; exact List.mem_cons_of_mem c h

theorem maxByTimestamp_le_best (l : List DataChange) :
    ∀ best, best.timestamp ≤ (maxByTimestamp best l).timestamp := by
  induction l with
  | nil => intro best; exact le_refl _
  | cons c rest ih =>
    intro best
    simp only [maxByTimestamp]
    refine le_trans ?_ (ih (if best.timestamp < c.timestamp then c else best))
    by_cases hlt : best.timestamp < c.timestamp
    · simp [hlt]; exact le_of_lt hlt
    · simp [hlt]

theorem maxByTimestamp_ge_mem (l : List DataChange) :
    ∀ best c, c ∈ l → c.timestamp ≤ (maxByTimestamp best l).timestamp := by
  induction l with
  | nil => intro best c h; exact absurd h (List.not_mem_nil c)
  | cons d rest ih =>
    intro best c h
    simp only [maxByTimestamp]
    rcases List.mem_cons.mp h with rfl | h
    · refine le_trans ?_
        (maxByTimestamp_le_best rest (if best.timestamp < c.timestamp then c else best))
      by_cases hlt : best.timestamp < c.timestamp
      · simp [hlt]
      · simp [hlt]; omega
    · exact ih _ c h

theorem mem_get_changes_for (changes : List DataChange)
    (dt t : Option String) (c : DataChange)
    (h : c ∈ get_changes_for changes dt t) : c ∈ changes := by
  unfold get_changes_for at h
  cases dt with
  | none =>
    cases t with
    | none => exact h
    | some s => exact (List.mem_filter.mp h).1
  | some s =>
    cases t with
    | none => exact (List.mem_filter.mp h).1
    | some s2 => exact (List.mem_filter.mp (List.mem_filter.mp h).1).1

theorem removeFirst_length (x : DataChange) (l : List DataChange)
    (h : x ∈ l) : (removeFirst x l).length + 1 = l.length := by
  induction l with
  | nil => exact absurd h (List.not_mem_nil x)
  | cons c rest ih =>
    simp only [removeFirst]
    by_cases he : c = x
    · simp [he]
    · rcases List.mem_cons.mp h with rfl | hm
      · exact absurd rfl he
      · simp only [he, if_false, List.length_cons]
        rw [← ih hm]

theorem update_conversation_state_budget (now : Nat) (cs : ConversationState)
    (i r : String) (s : ℚ) (e : Bool) :
    (update_conversation_state now cs i r s e).max_questions_remaining =
      max 0 (cs.max_questions_remaining - 1) := by
  cases e <;> rfl

/-! ## Claim theorems -/

/-- C1: Scenario A — the justification "I used my sword to cut my food
and it chipped" on an owned item's description field.  The validator
returns ok=true and admits "description", but attaches NO consequence:
the cosmetic allow-list arm admits "description" unconditionally and
`continue`s, so the ingenuity/consequence arm below it is unreachable.
The last two conjuncts evaluate that unreachable intent at this very
input: the ingenuity gate would have passed and the synthesized
consequence would have been "damage"/"minor", exactly as the claim
states. -/
theorem C1_scenarioA_admits_without_consequence :
    validate_item_balance worldFix "sword" scenarioAMods scenarioAInput =
      (true, "Valid modifications", [("description", scenarioADesc)]) ∧
    lookupStore (validate_item_balance worldFix "sword" scenarioAMods
      scenarioAInput).2.2 "_consequence" = none ∧
    is_ingenious_modification scenarioAInput scenarioADesc
      (calculate_ingenuity_score scenarioAInput scenarioAMods) = true ∧
    generate_consequence scenarioAInput swordFix scenarioAMods =
      ⟨"damage", "The sword shows signs of wear and damage from your creative use.",
       "item_damaged", "minor"⟩ :=
  ⟨by decide, by decide, by decide, by decide⟩

/-- C3: whenever `can_perform` denies an action, `execute` returns the
same denial reason and mutates neither the player nor the game state. -/
theorem C3_denied_execute_no_mutation :
    ∀ (a : Action) (player : Entity) (game_state : GameState) (r : String),
      a.can_perform player game_state = (false, r) →
      a.execute player game_state = Except.ok (false, r, player, game_state) := by
  intro a player game_state r h
  unfold Action.execute
  rw [h]
  rfl

/-- Witness for C3 at a concrete level-gated action. -/
theorem C3_witness :
    Action.can_perform deniedAction playerFix gsFix = (false, "Requires level 5") ∧
    Action.execute deniedAction playerFix gsFix =
      Except.ok (false, "Requires level 5", playerFix, gsFix) :=
  ⟨by decide,
   C3_denied_execute_no_mutation deniedAction playerFix gsFix "Requires level 5"
     (by decide)⟩

/-- C4: a validated action whose effect map carries the recognized
`unlock_ability` tag does NOT execute without failure: the effect arm
appends to `game_state.temporary_abilities`, an attribute `GameState`
does not define, so execution raises AttributeError instead of
returning Success. -/
theorem C4_unlock_ability_raises :
    Action.can_perform unlockAction playerFix gsFix =
      (true, "Action can be performed") ∧
    Action.execute unlockAction playerFix gsFix =
      Except.error unlockAbilityError :=
  ⟨by decide, by rfl⟩

/-- C5: a proposed description whose text contains the power-claim word
"magic" is NOT rejected: the cosmetic allow-list arm admits
"description" before the magic-word check (which sits in the
unreachable arm below it) can run, so the validator returns ok=true and
admits the field.  The second conjunct shows the text does contain the
power-claim vocabulary the claim is about. -/
theorem C5_power_vocabulary_not_rejected :
    validate_item_balance worldFix "sword" [("description", magicDesc)] "please" =
      (true, "Valid modifications", [("description", magicDesc)]) ∧
    (["magic", "enchanted", "powerful", "legendary", "epic"].any
      (fun w => strIn w (strLower magicDesc.pyStr))) = true :=
  ⟨by decide, by decide⟩

/-- C2: for every category with a power-protected field set (item,
skill, quest, location, npc), a proposed field in that set is never
returned in the admitted field map, for any world, target, proposed map
and justification text; and Scenario B — `{"cost": 500}` on an owned
item — yields ok=false with an empty admitted map and a reason naming
the power-protected field. -/
theorem C2_power_fields_never_admitted :
    (∀ (w : World) (data_type target : String) (mods : List (String × Val))
       (input f : String), f ∈ powerFields data_type →
      lookupStore (validate_game_balance w data_type target mods input).2.2 f = none) ∧
    validate_game_balance worldFix "item" "sword" [("cost", Val.vint 500)]
        "make my sword worth 500 gold" =
      (false, "Cannot modify cost - this would affect game balance", []) ∧
    strIn "cost" (validate_game_balance worldFix "item" "sword"
      [("cost", Val.vint 500)] "make my sword worth 500 gold").2.1 = true := by
  refine ⟨?_, by decide, by decide⟩
  intro w dt t mods inp f hf
  by_cases h1 : dt = "item"
  · subst h1
    have hv : validate_game_balance w "item" t mods inp =
        validate_item_balance w t mods inp := by
      simp [validate_game_balance]
    rw [hv]
    exact validate_item_no_power w t mods inp f (by simpa [powerFields] using hf)
  · by_cases h2 : dt = "skill"
    · subst h2
      have hv : validate_game_balance w "skill" t mods inp =
          validate_skill_balance w t mods inp := by
        simp [validate_game_balance]
      rw [hv]
      exact validate_skill_no_power w t mods inp f (by simpa [powerFields] using hf)
    · by_cases h3 : dt = "quest"
      · subst h3
        have hv : validate_game_balance w "quest" t mods inp =
            validate_quest_balance w t mods inp := by
          simp [validate_game_balance]
        rw [hv]
        exact validate_quest_no_power w t mods inp f (by simpa [powerFields] using hf)
      · by_cases h4 : dt = "location"
        · subst h4
          have hv : validate_game_balance w "location" t mods inp =
              validate_location_balance w t mods inp := by
            simp [validate_game_balance]
          rw [hv]
          exact validate_location_no_power w t mods inp f
            (by simpa [powerFields] using hf)
        · by_cases h5 : dt = "npc"
          · subst h5
            have hv : validate_game_balance w "npc" t mods inp =
                validate_npc_balance w t mods inp := by
              simp [validate_game_balance]
            rw [hv]
            exact validate_npc_no_power w t mods inp f
              (by simpa [powerFields] using hf)
          · have hempty : powerFields dt = [] := by
              simp [powerFields, beq_eq_false_iff_ne.mpr h1,
                beq_eq_false_iff_ne.mpr h2, beq_eq_false_iff_ne.mpr h3,
                beq_eq_false_iff_ne.mpr h4, beq_eq_false_iff_ne.mpr h5]
            rw [hempty] at hf
            exact absurd hf (List.not_mem_nil f)

/-- Witness for C2 at Scenario B's concrete input. -/
theorem C2_witness :
    "cost" ∈ powerFields "item" ∧
    lookupStore (validate_game_balance worldFix "item" "sword"
      [("cost", Val.vint 500)] "make my sword worth 500 gold").2.2 "cost" = none :=
  ⟨by decide,
   C2_power_fields_never_admitted.1 worldFix "item" "sword"
     [("cost", Val.vint 500)] "make my sword worth 500 gold" "cost" (by decide)⟩

/-- C6: `can_perform` equals the specification-shaped predicate that
runs the level floor, then each named resource cost in cost-map order
(with a per-resource insufficiency reason), then each required item,
then each required skill, then the location-equality check, the first
failing check determining the reported reason; it is a pure function of
the snapshot. -/
theorem C6_can_perform_check_order :
    ∀ (a : Action) (player : Entity) (game_state : GameState),
      a.can_perform player game_state = canPerformSpec a player game_state := by
  intro a player game_state
  unfold Action.can_perform canPerformSpec canPerformChecks
  simp only [List.append_assoc, List.cons_append, List.nil_append]
  cases hl : level_fail a.requirements player with
  | some r => simp [firstFailure]
  | none =>
    simp only [firstFailure]
    rw [firstFailure_append, ← cost_fail_eq]
    cases hc : cost_fail player a.cost with
    | some r => simp
    | none =>
      simp only
      rw [firstFailure_append, ← items_fail_eq]
      cases hi : a.requirements.items with
      | none =>
        simp only [Option.getD_none, items_fail]
        rw [firstFailure_append, ← skills_fail_eq]
        cases hs : a.requirements.skills with
        | none =>
          simp only [Option.getD_none, skills_fail]
          cases hloc : location_fail a.requirements game_state <;>
            simp [firstFailure]
        | some ls =>
          simp only [Option.getD_some]
          cases hsf : skills_fail player ls with
          | some r => simp
          | none =>
            cases hloc : location_fail a.requirements game_state <;>
              simp [firstFailure]
      | some li =>
        simp only [Option.getD_some]
        cases hif : items_fail player li with
        | some r => simp
        | none =>
          simp only
          rw [firstFailure_append, ← skills_fail_eq]
          cases hs : a.requirements.skills with
          | none =>
            simp only [Option.getD_none, skills_fail]
            cases hloc : location_fail a.requirements game_state <;>
              simp [firstFailure]
          | some ls =>
            simp only [Option.getD_some]
            cases hsf : skills_fail player ls with
            | some r => simp
            | none =>
              cases hloc : location_fail a.requirements game_state <;>
                simp [firstFailure]

/-- C8: over any turn the remaining-question budget never increases and
never becomes negative, and once it is 0 any input yields the fixed
"tired of questions" reply with the conversation state unchanged and no
oracle call (the result is the same for every oracle analysis and
generated response, and the oracle-called flag is false). -/
theorem C8_budget_monotone_and_exhausted :
    ∀ (now : Nat) (npc : NPCConv) (cs : ConversationState) (input : String)
      (analysis : Analysis) (dynamic_response : String),
      0 ≤ cs.max_questions_remaining →
      (0 ≤ (talk_turn now npc cs input analysis
              dynamic_response).2.1.max_questions_remaining ∧
       (talk_turn now npc cs input analysis
          dynamic_response).2.1.max_questions_remaining ≤
          cs.max_questions_remaining) ∧
      (cs.max_questions_remaining = 0 →
        talk_turn now npc cs input analysis dynamic_response =
          (.tired, cs, false)) := by
  intro now npc cs input analysis dynamic_response h0
  constructor
  · unfold talk_turn
    split
    · exact ⟨h0, le_refl _⟩
    next hpos =>
      split
      next topic hm =>
        rw [update_conversation_state_budget]
        exact ⟨le_max_left _ _, max_le h0 (by omega)⟩
      next hm =>
        split
        · exact ⟨h0, le_refl _⟩
        next hval =>
          split <;>
            (rw [update_conversation_state_budget]
             exact ⟨le_max_left _ _, max_le h0 (by omega)⟩)
  · intro hz
    unfold talk_turn
    rw [if_pos (by omega : cs.max_questions_remaining ≤ 0)]

/-- Witness for C8 at a concrete active conversation state. -/
theorem C8_witness :
    0 ≤ csActiveFix.max_questions_remaining ∧
    (0 ≤ (talk_turn 0 npcEmptyFix csActiveFix "tell me about the town"
            analysisFix "Hmm.").2.1.max_questions_remaining ∧
     (talk_turn 0 npcEmptyFix csActiveFix "tell me about the town"
        analysisFix "Hmm.").2.1.max_questions_remaining ≤
        csActiveFix.max_questions_remaining) ∧
    (csActiveFix.max_questions_remaining = 0 →
      talk_turn 0 npcEmptyFix csActiveFix "tell me about the town"
        analysisFix "Hmm." = (.tired, csActiveFix, false)) :=
  ⟨by decide,
   C8_budget_monotone_and_exhausted 0 npcEmptyFix csActiveFix
     "tell me about the town" analysisFix "Hmm." (by decide)⟩

/-- C9 counterexample: at a turn whose budget is 0, the trivial,
non-topic input "hi" yields the fixed "tired" reply, not the "confused"
reaction the claim requires for every conversation turn. -/
theorem C9_counterexample :
    is_invalid_conversation_input "hi" = true ∧
    match_preset_topic "hi" npcEmptyFix = none ∧
    csExhaustedFix.max_questions_remaining = 0 ∧
    (talk_turn 0 npcEmptyFix csExhaustedFix "hi" analysisFix "Hmm.").1 =
      TalkReply.tired ∧
    (talk_turn 0 npcEmptyFix csExhaustedFix "hi" analysisFix "Hmm.").1 ≠
      TalkReply.confused :=
  ⟨by decide, by decide, by decide, by rfl, by decide⟩

/-- C9 as amended: on a turn with a positive remaining budget, a player
input caught by the triviality screen yields the fixed "confused"
reaction with the conversation state entirely unchanged and no oracle
call — unless the input matches a scripted topic (by raw name,
humanized name, or valid 1-based index), in which case it is handled as
that scripted topic instead. -/
theorem C9_trivial_input_screen :
    ∀ (now : Nat) (npc : NPCConv) (cs : ConversationState) (input : String)
      (analysis : Analysis) (dynamic_response : String),
      0 < cs.max_questions_remaining →
      is_invalid_conversation_input input = true →
      ((match_preset_topic input npc = none →
         talk_turn now npc cs input analysis dynamic_response =
           (.confused, cs, false)) ∧
       (∀ topic, match_preset_topic input npc = some topic →
         talk_turn now npc cs input analysis dynamic_response =
           (.scripted (starterFor npc topic) (responseFor npc topic),
            update_conversation_state now cs (starterFor npc topic)
              (responseFor npc topic) 1 false, false))) := by
  intro now npc cs input analysis dynamic_response hpos hinv
  constructor
  · intro hm
    unfold talk_turn
    rw [if_neg (by omega : ¬cs.max_questions_remaining ≤ 0), hm, hinv]
    rfl
  · intro topic hm
    unfold talk_turn
    rw [if_neg (by omega : ¬cs.max_questions_remaining ≤ 0), hm]

/-- Witness for the amended C9 at a concrete trivial input. -/
theorem C9_witness :
    0 < csActiveFix.max_questions_remaining ∧
    is_invalid_conversation_input "hi" = true ∧
    talk_turn 0 npcEmptyFix csActiveFix "hi" analysisFix "Hmm." =
      (.confused, csActiveFix, false) :=
  ⟨by decide, by decide,
   (C9_trivial_input_screen 0 npcEmptyFix csActiveFix "hi" analysisFix "Hmm."
     (by decide) (by decide)).1 (by decide)⟩

/-- C10: for a category outside {item, skill, quest, location, npc} —
in particular "blueprint" — the balance validator admits the entire
proposed field map unfiltered with ok=true and no ownership check (the
result is the same for every world and target); and the blueprint
application path overwrites any existing attribute of the blueprint
object with the admitted value and records the change. -/
theorem C10_unvalidated_category_admits_all :
    (∀ (w : World) (data_type target : String) (mods : List (String × Val))
       (input : String),
      data_type ∉ (["item", "skill", "quest", "location", "npc"] : List String) →
      validate_game_balance w data_type target mods input =
        (true, "No balance validation for this data type", mods)) ∧
    (∀ (obj : Obj) (f : String) (v old : Val) (tracker : List DataChange)
       (t ui rs : String) (now : Nat),
      lookupStore obj f = some old →
      apply_obj_mods obj tracker "blueprint" t ui rs now [(f, v)] =
        (dictSet obj f v,
         tracker ++ [DataChange.mk now "blueprint" t f old v ui rs]) ∧
      lookupStore (dictSet obj f v) f = some v) := by
  constructor
  · intro w dt t mods inp h
    simp only [List.mem_cons, List.mem_singleton, not_or] at h
    obtain ⟨h1, h2, h3, h4, h5, _⟩ := h
    simp [validate_game_balance, beq_eq_false_iff_ne.mpr h1,
      beq_eq_false_iff_ne.mpr h2, beq_eq_false_iff_ne.mpr h3,
      beq_eq_false_iff_ne.mpr h4, beq_eq_false_iff_ne.mpr h5]
  · intro obj f v old tracker t ui rs now h
    have hk : hasKey obj f = true := hasKey_of_lookup obj f old h
    refine ⟨?_, lookupStore_dictSet_self obj f v⟩
    simp [apply_obj_mods, hk, h]

/-- Witness for C10 at category "blueprint" and a concrete blueprint
attribute. -/
theorem C10_witness :
    ("blueprint" ∉ (["item", "skill", "quest", "location", "npc"] : List String) ∧
     validate_game_balance worldFix "blueprint" "iron_blade"
        [("resulting_item", Val.vstr "axe")] "change the blueprint" =
       (true, "No balance validation for this data type",
        [("resulting_item", Val.vstr "axe")])) ∧
    (lookupStore blueprintFix "resulting_item" = some (Val.vstr "sword") ∧
     apply_obj_mods blueprintFix [] "blueprint" "iron_blade" "change the blueprint"
        "player request" 9 [("resulting_item", Val.vstr "axe")] =
       (dictSet blueprintFix "resulting_item" (Val.vstr "axe"),
        [DataChange.mk 9 "blueprint" "iron_blade" "resulting_item"
          (Val.vstr "sword") (Val.vstr "axe") "change the blueprint"
          "player request"]) ∧
     lookupStore (dictSet blueprintFix "resulting_item" (Val.vstr "axe"))
       "resulting_item" = some (Val.vstr "axe")) :=
  ⟨⟨by decide,
    C10_unvalidated_category_admits_all.1 worldFix "blueprint" "iron_blade"
      [("resulting_item", Val.vstr "axe")] "change the blueprint" (by decide)⟩,
   ⟨by decide,
    by
      have h := C10_unvalidated_category_admits_all.2 blueprintFix
        "resulting_item" (Val.vstr "axe") (Val.vstr "sword") [] "iron_blade"
        "change the blueprint" "player request" 9 (by decide)
      simpa using h⟩⟩

/-- C7: when the filtered change list is non-empty, `revert_last_change`
selects the most-recently-timestamped matching record (a member of the
filtered list that every filtered record's timestamp is bounded by); if
the live entity for that record no longer exists it returns failure
with the stores and the change log unchanged; otherwise it reports
success, writes the record's old value back onto the live entity's
field, and removes exactly that one record from the log. -/
theorem C7_revert_last_change :
    ∀ (st : Stores) (changes : List DataChange) (dtF tF : Option String)
      (c0 : DataChange) (rest : List DataChange),
      get_changes_for changes dtF tF = c0 :: rest →
      ((maxByTimestamp c0 rest ∈ c0 :: rest ∧
        ∀ c ∈ c0 :: rest, c.timestamp ≤ (maxByTimestamp c0 rest).timestamp) ∧
       (target_exists st (maxByTimestamp c0 rest) = false →
         revert_last_change st changes dtF tF = (false, st, changes)) ∧
       (target_exists st (maxByTimestamp c0 rest) = true →
         (revert_last_change st changes dtF tF).1 = true ∧
         (revert_last_change st changes dtF tF).2.2 =
           removeFirst (maxByTimestamp c0 rest) changes ∧
         entity_field (revert_last_change st changes dtF tF).2.1
             (maxByTimestamp c0 rest) =
           some (maxByTimestamp c0 rest).old_value ∧
         (removeFirst (maxByTimestamp c0 rest) changes).length + 1 =
           changes.length)) := by
  intro st changes dtF tF c0 rest hf
  have hmemf : maxByTimestamp c0 rest ∈ c0 :: rest := by
    rcases maxByTimestamp_mem rest c0 with h | h
    · rw [h]; exact List.mem_cons_self _ _
    · exact List.mem_cons_of_mem _ h
  have hmemc : maxByTimestamp c0 rest ∈ changes := by
    apply mem_get_changes_for changes dtF tF
    rw [hf]; exact hmemf
  have hlen : (removeFirst (maxByTimestamp c0 rest) changes).length + 1 =
      changes.length := removeFirst_length _ _ hmemc
  refine ⟨⟨hmemf, ?_⟩, ?_, ?_⟩
  · intro c hc
    rcases List.mem_cons.mp hc with rfl | hc
    · exact maxByTimestamp_le_best rest c
    · exact maxByTimestamp_ge_mem rest c0 c hc
  · intro hne
    simp only [target_exists, Bool.or_eq_false_iff] at hne
    obtain ⟨⟨⟨⟨⟨h1, h2⟩, h3⟩, h4⟩, h5⟩, h6⟩ := hne
    unfold revert_last_change
    rw [hf]
    simp [h1, h2, h3, h4, h5, h6]
  · intro hex
    simp only [target_exists, Bool.or_eq_true] at hex
    rcases hex with ((((h | h) | h) | h) | h) | h
    · -- location
      obtain ⟨hdt, hk⟩ := Bool.and_eq_true_iff.mp h
      have hrev : revert_last_change st changes dtF tF =
          (true,
           { st with locations := storeRevert st.locations (maxByTimestamp c0 rest) },
           removeFirst (maxByTimestamp c0 rest) changes) := by
        unfold revert_last_change
        rw [hf]
        simp [hdt, hk]
      refine ⟨by rw [hrev], by rw [hrev], ?_, hlen⟩
      rw [hrev]
      obtain ⟨obj, hobj⟩ :=
        lookup_of_hasKey st.locations (maxByTimestamp c0 rest).target_id hk
      have hsr : storeRevert st.locations (maxByTimestamp c0 rest) =
          dictSet st.locations (maxByTimestamp c0 rest).target_id
            (dictSet obj (maxByTimestamp c0 rest).field_name
              (maxByTimestamp c0 rest).old_value) := by
        unfold storeRevert; rw [hobj]
      unfold entity_field
      simp only [hdt, if_true]
      rw [hsr]
      simp [lookupStore_dictSet_self]
    · -- quest
      obtain ⟨hdt, hk⟩ := Bool.and_eq_true_iff.mp h
      have heq : (maxByTimestamp c0 rest).data_type = "quest" := beq_iff_eq.mp hdt
      have hd1 : ((maxByTimestamp c0 rest).data_type == "location") = false := by
        rw [heq]; decide
      have hrev : revert_last_change st changes dtF tF =
          (true,
           { st with quests := storeRevert st.quests (maxByTimestamp c0 rest) },
           removeFirst (maxByTimestamp c0 rest) changes) := by
        unfold revert_last_change
        rw [hf]
        simp [hd1, hdt, hk]
      refine ⟨by rw [hrev], by rw [hrev], ?_, hlen⟩
      rw [hrev]
      obtain ⟨obj, hobj⟩ :=
        lookup_of_hasKey st.quests (maxByTimestamp c0 rest).target_id hk
      have hsr : storeRevert st.quests (maxByTimestamp c0 rest) =
          dictSet st.quests (maxByTimestamp c0 rest).target_id
            (dictSet obj (maxByTimestamp c0 rest).field_name
              (maxByTimestamp c0 rest).old_value) := by
        unfold storeRevert; rw [hobj]
      unfold entity_field
      simp only [hd1, Bool.false_eq_true, if_false, hdt, if_true]
      rw [hsr]
      simp [lookupStore_dictSet_self]
    · -- item
      obtain ⟨hdt, hk⟩ := Bool.and_eq_true_iff.mp h
      have heq : (maxByTimestamp c0 rest).data_type = "item" := beq_iff_eq.mp hdt
      have hd1 : ((maxByTimestamp c0 rest).data_type == "location") = false := by
        rw [heq]; decide
      have hd2 : ((maxByTimestamp c0 rest).data_type == "quest") = false := by
        rw [heq]; decide
      have hrev : revert_last_change st changes dtF tF =
          (true,
           { st with items := storeRevert st.items (maxByTimestamp c0 rest) },
           removeFirst (maxByTimestamp c0 rest) changes) := by
        unfold revert_last_change
        rw [hf]
        simp [hd1, hd2, hdt, hk]
      refine ⟨by rw [hrev], by rw [hrev], ?_, hlen⟩
      rw [hrev]
      obtain ⟨obj, hobj⟩ :=
        lookup_of_hasKey st.items (maxByTimestamp c0 rest).target_id hk
      have hsr : storeRevert st.items (maxByTimestamp c0 rest) =
          dictSet st.items (maxByTimestamp c0 rest).target_id
            (dictSet obj (maxByTimestamp c0 rest).field_name
              (maxByTimestamp c0 rest).old_value) := by
        unfold storeRevert; rw [hobj]
      unfold entity_field
      simp only [hd1, hd2, Bool.false_eq_true, if_false, hdt, if_true]
      rw [hsr]
      simp [lookupStore_dictSet_self]
    · -- npc
      obtain ⟨hdt, hk⟩ := Bool.and_eq_true_iff.mp h
      have heq : (maxByTimestamp c0 rest).data_type = "npc" := beq_iff_eq.mp hdt
      have hd1 : ((maxByTimestamp c0 rest).data_type == "location") = false := by
        rw [heq]; decide
      have hd2 : ((maxByTimestamp c0 rest).data_type == "quest") = false := by
        rw [heq]; decide
      have hd3 : ((maxByTimestamp c0 rest).data_type == "item") = false := by
        rw [heq]; decide
      have hrev : revert_last_change st changes dtF tF =
          (true,
           { st with npcs := storeRevert st.npcs (maxByTimestamp c0 rest) },
           removeFirst (maxByTimestamp c0 rest) changes) := by
        unfold revert_last_change
        rw [hf]
        simp [hd1, hd2, hd3, hdt, hk]
      refine ⟨by rw [hrev], by rw [hrev], ?_, hlen⟩
      rw [hrev]
      obtain ⟨obj, hobj⟩ :=
        lookup_of_hasKey st.npcs (maxByTimestamp c0 rest).target_id hk
      have hsr : storeRevert st.npcs (maxByTimestamp c0 rest) =
          dictSet st.npcs (maxByTimestamp c0 rest).target_id
            (dictSet obj (maxByTimestamp c0 rest).field_name
              (maxByTimestamp c0 rest).old_value) := by
        unfold storeRevert; rw [hobj]
      unfold entity_field
      simp only [hd1, hd2, hd3, Bool.false_eq_true, if_false, hdt, if_true]
      rw [hsr]
      simp [lookupStore_dictSet_self]
    · -- skill
      obtain ⟨hdt, hk⟩ := Bool.and_eq_true_iff.mp h
      have heq : (maxByTimestamp c0 rest).data_type = "skill" := beq_iff_eq.mp hdt
      have hd1 : ((maxByTimestamp c0 rest).data_type == "location") = false := by
        rw [heq]; decide
      have hd2 : ((maxByTimestamp c0 rest).data_type == "quest") = false := by
        rw [heq]; decide
      have hd3 : ((maxByTimestamp c0 rest).data_type == "item") = false := by
        rw [heq]; decide
      have hd4 : ((maxByTimestamp c0 rest).data_type == "npc") = false := by
        rw [heq]; decide
      have hrev : revert_last_change st changes dtF tF =
          (true,
           { st with skills := storeRevert st.skills (maxByTimestamp c0 rest) },
           removeFirst (maxByTimestamp c0 rest) changes) := by
        unfold revert_last_change
        rw [hf]
        simp [hd1, hd2, hd3, hd4, hdt, hk]
      refine ⟨by rw [hrev], by rw [hrev], ?_, hlen⟩
      rw [hrev]
      obtain ⟨obj, hobj⟩ :=
        lookup_of_hasKey st.skills (maxByTimestamp c0 rest).target_id hk
      have hsr : storeRevert st.skills (maxByTimestamp c0 rest) =
          dictSet st.skills (maxByTimestamp c0 rest).target_id
            (dictSet obj (maxByTimestamp c0 rest).field_name
              (maxByTimestamp c0 rest).old_value) := by
        unfold storeRevert; rw [hobj]
      unfold entity_field
      simp only [hd1, hd2, hd3, hd4, Bool.false_eq_true, if_false, hdt, if_true]
      rw [hsr]
      simp [lookupStore_dictSet_self]
    · -- blueprint
      obtain ⟨hdt, hk⟩ := Bool.and_eq_true_iff.mp h
      have heq : (maxByTimestamp c0 rest).data_type = "blueprint" := beq_iff_eq.mp hdt
      have hd1 : ((maxByTimestamp c0 rest).data_type == "location") = false := by
        rw [heq]; decide
      have hd2 : ((maxByTimestamp c0 rest).data_type == "quest") = false := by
        rw [heq]; decide
      have hd3 : ((maxByTimestamp c0 rest).data_type == "item") = false := by
        rw [heq]; decide
      have hd4 : ((maxByTimestamp c0 rest).data_type == "npc") = false := by
        rw [heq]; decide
      have hd5 : ((maxByTimestamp c0 rest).data_type == "skill") = false := by
        rw [heq]; decide
      have hrev : revert_last_change st changes dtF tF =
          (true,
           { st with blueprints := storeRevert st.blueprints (maxByTimestamp c0 rest) },
           removeFirst (maxByTimestamp c0 rest) changes) := by
        unfold revert_last_change
        rw [hf]
        simp [hd1, hd2, hd3, hd4, hd5, hdt, hk]
      refine ⟨by rw [hrev], by rw [hrev], ?_, hlen⟩
      rw [hrev]
      obtain ⟨obj, hobj⟩ :=
        lookup_of_hasKey st.blueprints (maxByTimestamp c0 rest).target_id hk
      have hsr : storeRevert st.blueprints (maxByTimestamp c0 rest) =
          dictSet st.blueprints (maxByTimestamp c0 rest).target_id
            (dictSet obj (maxByTimestamp c0 rest).field_name
              (maxByTimestamp c0 rest).old_value) := by
        unfold storeRevert; rw [hobj]
      unfold entity_field
      simp only [hd1, hd2, hd3, hd4, hd5, Bool.false_eq_true, if_false, hdt, if_true]
      rw [hsr]
      simp [lookupStore_dictSet_self]

/-- Witness for C7: reverting the single recorded change of the sword's
description, and the Scenario E case where the sword was deleted. -/
theorem C7_witness :
    get_changes_for [changeFix] (some "item") (some "sword") = [changeFix] ∧
    (target_exists storesFix changeFix = true ∧
     (revert_last_change storesFix [changeFix] (some "item") (some "sword")).1 = true ∧
     entity_field
       (revert_last_change storesFix [changeFix] (some "item") (some "sword")).2.1
       changeFix = some (Val.vstr "A trusty blade.")) ∧
    (target_exists storesNoSwordFix changeFix = false ∧
     revert_last_change storesNoSwordFix [changeFix] (some "item") (some "sword") =
       (false, storesNoSwordFix, [changeFix])) := by
  refine ⟨by decide, ⟨by decide, ?_, ?_⟩, ⟨by decide, ?_⟩⟩
  · exact ((C7_revert_last_change storesFix [changeFix] (some "item") (some "sword")
      changeFix [] (by decide)).2.2 (by decide)).1
  · exact ((C7_revert_last_change storesFix [changeFix] (some "item") (some "sword")
      changeFix [] (by decide)).2.2 (by decide)).2.2.1
  · exact (C7_revert_last_change storesNoSwordFix [changeFix] (some "item")
      (some "sword") changeFix [] (by decide)).2.1 (by decide)

end DND
